import Mathlib

set_option maxRecDepth 8000
set_option maxHeartbeats 4000000

/-!
Verification of the PyLox tree-walking interpreter (FallenDeity/LoxInterpreter).

The development shallowly embeds the relevant parts of the Python sources:

* `src/src/interpreter/interpreter.py` (class `Interpreter`): runtime values,
  exception hierarchy, the statement and expression visitors, `_execute_block`,
  `visit_while_stmt`, `visit_try_stmt`, `interpret`;
* `src/src/internals/callables.py` (`LoxFunction.__call__`);
* `src/src/internals/hash.py` (`Get.__call__`, `Set.__call__`);
* `src/src/lexer/lexer.py` together with `src/src/utils/cursor.py` and
  `src/src/lexer/tokens.py`;
* `src/src/parser/parser.py`;
* `src/src/preprocessor.py` (`PreProcessor._resolve_imports`).

Modelling conventions, stated once here:

* Python exceptions never roll back state, so every effectful function has
  type `State -> Except PyExc A × State`; the returned state is meaningful on
  the error path as well.
* Recursion (loops, recursive descent, function calls) is made total with an
  explicit fuel parameter; running out of fuel yields the distinguished
  `PyExc.fuelExhausted`, which no embedded `except` clause catches, mirroring
  the fact that it is a model artifact and not a Python exception.
* Python `float` is modelled exactly as `ℚ`; no claim below depends on
  floating-point rounding, only on the int/float type tag and on exact
  integer arithmetic.
* Diagnostic strings: `Interpreter.error` and `Cursor.error_highlight` build
  caret-highlighted messages from the source text.  No claim inspects message
  text, so messages are modelled as plain strings carrying the fixed part of
  the text (without braces, carets and source excerpts).
* Character classification (`str.isalpha` etc.) is modelled on ASCII; all
  claims concern ASCII source text.
* The environment chain is heap-allocated in Python; the model uses an
  explicit heap `List Frame` addressed by `Nat` ids so that frames are shared
  and mutations are visible through aliases, exactly as in CPython.
-/

namespace LoxSpec

/-! ## Runtime values (src/src/internals, interpreter.py `_converter`)

Literal payloads produced by the lexer: Python `None`, `bool`, `int`,
`float`, `str`.  `Interpreter._evaluate` pipes every visitor result through
`_converter`, which wraps `str` into `LoxString`; hence at runtime every
string value is a `LoxString` and is modelled by the single `strV`
constructor. -/

inductive Prim where
  | nil
  | boolean (b : Bool)
  | intP (n : Int)
  | floatP (q : ℚ)
  | strP (s : String)
deriving DecidableEq, Repr

/-! AST (src/src/utils/expr.py).  AST nodes store tokens; only the token
lexeme is consulted by the interpreter paths modelled here, so names are
carried as `String` and operators as small enums keyed by the token type.
The `For` node exists in expr.py but is never produced by the parser (for
loops desugar to while) and `visit_for_stmt` raises `NotImplementedError`,
so it is omitted. -/

inductive BinOp where
  | minus | plus | slash | backslash | star | modulo | carat
  | greater | greaterEqual | less | lessEqual | bangEqual | equalEqual
deriving DecidableEq, Repr

inductive UnOp where
  | minus | bang
deriving DecidableEq, Repr

inductive LogOp where
  | orOp | andOp
deriving DecidableEq, Repr

inductive Expr where
  | literal (value : Prim)
  | grouping (expression : Expr)
  | unary (op : UnOp) (right : Expr)
  | binary (left : Expr) (op : BinOp) (right : Expr)
  | logical (left : Expr) (op : LogOp) (right : Expr)
  | variableE (name : String)
  | assign (token : String) (value : Expr)
  | call (callee : Expr) (arguments : List Expr)
  | get (object : Expr) (name : String)
  | setE (object : Expr) (name : String) (value : Expr)
  | this
  | superE (method : String)

inductive Stmt where
  | expression (e : Expr)
  | print (e : Expr)
  | varDecl (name : String) (initializer : Option Expr)
  | block (statements : List Stmt)
  | ifS (condition : Expr) (thenBranch : Stmt) (elseBranch : Option Stmt)
  | whileS (condition : Expr) (body : Stmt)
  | breakS
  | continueS
  | returnS (value : Option Expr)
  | throwS (value : Expr)
  | tryS (error : Option String) (tryBlock : Stmt)
      (catchBlock : Option Stmt) (finallyBlock : Option Stmt)
  | function (name : String) (params : List String) (body : List Stmt)
  | classS (name : String) (superclass : Option String) (methods : List Stmt)

/-- Runtime values.  `function` records `LoxFunction(declaration, closure,
is_initializer)`; the closure is an environment id into the heap. -/
inductive LoxValue where
  | nil
  | boolean (b : Bool)
  | intV (n : Int)
  | floatV (q : ℚ)
  | strV (s : String)
  | function (name : String) (params : List String) (body : List Stmt)
      (closure : Nat) (isInit : Bool)

/-- Python `type(x)` tags for the modelled values.  CPython distinguishes
`bool` from `int` under `type(...)` even though `bool` subclasses `int`. -/
inductive PyType where
  | noneType | boolT | intT | floatT | loxStringT | loxFunctionT
deriving DecidableEq, Repr

def pyTypeOf : LoxValue → PyType
  | .nil => .noneType
  | .boolean _ => .boolT
  | .intV _ => .intT
  | .floatV _ => .floatT
  | .strV _ => .loxStringT
  | .function .. => .loxFunctionT

/-! ## Exceptions (src/src/exceptions.py)

`PyLoxReturnError`, `PyLoxBreakError` and `PyLoxContinueError` are declared
as subclasses of `PyLoxRuntimeError`; `PyLoxTypeError` and
`PyLoxAttributeError` subclass only `PyLoxException`.  `hostError` stands for
any other Python-level exception (`IndexError`, `NotImplementedError`, ...).
-/

inductive PyExc where
  | runtimeError (msg : String)
  | returnSignal (msg : String) (value : LoxValue)
  | breakSignal (msg : String)
  | continueSignal (msg : String)
  | typeError (msg : String)
  | attributeError (msg : String)
  | syntaxError (msg : String)
  | valueError (msg : String)
  | parseError (msg : String)
  | hostError (msg : String)
  | fuelExhausted

/-- Membership in class `PyLoxRuntimeError` (`except PyLoxRuntimeError`). -/
def PyExc.isPyLoxRuntimeError : PyExc → Bool
  | .runtimeError _ => true
  | .returnSignal _ _ => true
  | .breakSignal _ => true
  | .continueSignal _ => true
  | _ => false

/-- Membership in class `PyLoxContinueError` (`except PyLoxContinueError`). -/
def PyExc.isContinue : PyExc → Bool
  | .continueSignal _ => true
  | _ => false

/-- Membership in Python class `Exception` (`except Exception`); every
modelled Python exception is an `Exception`, the fuel marker is not. -/
def PyExc.isException : PyExc → Bool
  | .fuelExhausted => false
  | _ => true

/-- Python `str(error)`; the exact text is irrelevant to every claim. -/
def PyExc.message : PyExc → String
  | .runtimeError m => m
  | .returnSignal m _ => m
  | .breakSignal m => m
  | .continueSignal m => m
  | .typeError m => m
  | .attributeError m => m
  | .syntaxError m => m
  | .valueError m => m
  | .parseError m => m
  | .hostError m => m
  | .fuelExhausted => "fuel exhausted"

/-! ## Equality, truthiness, stringification (interpreter.py 87-110) -/

mutual

/-- Structural Bool equality of expressions (frozen dataclass `__eq__`). -/
def exprEqB : Expr → Expr → Bool
  | .literal a, .literal b => a = b
  | .grouping a, .grouping b => exprEqB a b
  | .unary o1 r1, .unary o2 r2 => o1 = o2 && exprEqB r1 r2
  | .binary l1 o1 r1, .binary l2 o2 r2 =>
      exprEqB l1 l2 && o1 = o2 && exprEqB r1 r2
  | .logical l1 o1 r1, .logical l2 o2 r2 =>
      exprEqB l1 l2 && o1 = o2 && exprEqB r1 r2
  | .variableE a, .variableE b => a = b
  | .assign t1 v1, .assign t2 v2 => t1 = t2 && exprEqB v1 v2
  | .call c1 a1, .call c2 a2 => exprEqB c1 c2 && exprListEqB a1 a2
  | .get o1 n1, .get o2 n2 => exprEqB o1 o2 && n1 = n2
  | .setE o1 n1 v1, .setE o2 n2 v2 => exprEqB o1 o2 && n1 = n2 && exprEqB v1 v2
  | .this, .this => true
  | .superE m1, .superE m2 => m1 = m2
  | _, _ => false

def exprListEqB : List Expr → List Expr → Bool
  | [], [] => true
  | x :: xs, y :: ys => exprEqB x y && exprListEqB xs ys
  | _, _ => false

end

mutual

/-- Structural Bool equality of statements (frozen dataclass `__eq__`). -/
def stmtEqB : Stmt → Stmt → Bool
  | .expression a, .expression b => exprEqB a b
  | .print a, .print b => exprEqB a b
  | .varDecl n1 i1, .varDecl n2 i2 =>
      n1 = n2 && optExprEqB i1 i2
  | .block s1, .block s2 => stmtListEqB s1 s2
  | .ifS c1 t1 e1, .ifS c2 t2 e2 =>
      exprEqB c1 c2 && stmtEqB t1 t2 && optStmtEqB e1 e2
  | .whileS c1 b1, .whileS c2 b2 => exprEqB c1 c2 && stmtEqB b1 b2
  | .breakS, .breakS => true
  | .continueS, .continueS => true
  | .returnS v1, .returnS v2 => optExprEqB v1 v2
  | .throwS v1, .throwS v2 => exprEqB v1 v2
  | .tryS e1 t1 c1 f1, .tryS e2 t2 c2 f2 =>
      e1 = e2 && stmtEqB t1 t2 && optStmtEqB c1 c2 && optStmtEqB f1 f2
  | .function n1 p1 b1, .function n2 p2 b2 =>
      n1 = n2 && p1 = p2 && stmtListEqB b1 b2
  | .classS n1 s1 m1, .classS n2 s2 m2 =>
      n1 = n2 && s1 = s2 && stmtListEqB m1 m2
  | _, _ => false

def optExprEqB : Option Expr → Option Expr → Bool
  | none, none => true
  | some a, some b => exprEqB a b
  | _, _ => false

def optStmtEqB : Option Stmt → Option Stmt → Bool
  | none, none => true
  | some a, some b => stmtEqB a b
  | _, _ => false

def stmtListEqB : List Stmt → List Stmt → Bool
  | [], [] => true
  | x :: xs, y :: ys => stmtEqB x y && stmtListEqB xs ys
  | _, _ => false

end

/-- Python `==` restricted to two operands of the same `type()`.  Scalars
compare by value; `LoxString.__eq__` (via `LoxContainer`) compares the
underlying `fields` strings; `LoxFunction` is a dataclass whose `__eq__`
compares the declaration and flags fieldwise (the captured environment is
compared here by heap id; no claim compares function values). -/
def pyEqSameType : LoxValue → LoxValue → Bool
  | .nil, .nil => true
  | .boolean a, .boolean b => a = b
  | .intV a, .intV b => a = b
  | .floatV a, .floatV b => a = b
  | .strV a, .strV b => a = b
  | .function n1 p1 b1 c1 i1, .function n2 p2 b2 c2 i2 =>
      n1 = n2 && p1 = p2 && stmtListEqB b1 b2 && c1 = c2 && i1 = i2
  | _, _ => false

/-- Embedding of `Interpreter.is_equal` (interpreter.py 87-92): `type(left) != type(right)`
short-circuits to `False`, otherwise Python `==` decides. -/
def is_equal (left right : LoxValue) : Bool :=
  if pyTypeOf left ≠ pyTypeOf right then false
  else pyEqSameType left right

/-- Embedding of `Interpreter.is_truthy` (interpreter.py 103-110): `None` and `False` are
falsy, every other value (including `0` and empty strings) is truthy. -/
def is_truthy : LoxValue → Bool
  | .nil => false
  | .boolean b => b
  | _ => true

/-- Python truthiness (`bool(x)`) as used by the `or` in hash `Get.__call__`;
unlike Lox truthiness, `0`, `0.0` and empty strings are falsy. -/
def pyTruthy : LoxValue → Bool
  | .nil => false
  | .boolean b => b
  | .intV n => n ≠ 0
  | .floatV q => q ≠ 0
  | .strV s => s ≠ ""
  | .function .. => true

/-- Python `str(x)` for modelled scalars (used by hash key fallback and
`stringify`); the float rendering is schematic, no claim depends on it. -/
def pyStr : LoxValue → String
  | .nil => "None"
  | .boolean b => if b then "True" else "False"
  | .intV n => toString n
  | .floatV q => toString q
  | .strV s => s
  | .function name _ _ _ _ => "<LoxFunction " ++ name ++ ">"

/-- Embedding of `Interpreter.stringify` (interpreter.py 94-101). -/
def stringify : LoxValue → String
  | .nil => "nil"
  | .boolean b => if b then "true" else "false"
  | v => pyStr v


/-! ## Numeric operands (interpreter.py `_numeric_validation` and the
arithmetic arms of `visit_binary_expr`)

`_numeric_validation` uses `isinstance(x, (int, float))`, which accepts
`bool` (a subclass of `int`); Python arithmetic then treats `True`/`False`
as `1`/`0`.  The `+` arm instead tests `type(x) in (int, float)`, which
rejects `bool`.  `NumV` carries the int/float distinction through
arithmetic: an operation on two ints stays an int, anything involving a
float widens to float. -/

inductive NumV where
  | i (n : Int)
  | f (q : ℚ)

/-- Numeric reading of a value under `isinstance(x, (int, float))`. -/
def asNum : LoxValue → Option NumV
  | .boolean b => some (.i (if b then 1 else 0))
  | .intV n => some (.i n)
  | .floatV q => some (.f q)
  | _ => none

def NumV.toQ : NumV → ℚ
  | .i n => (n : ℚ)
  | .f q => q

/-- Repack a numeric result as a runtime value. -/
def NumV.toValue : NumV → LoxValue
  | .i n => .intV n
  | .f q => .floatV q

/-- Widening binary arithmetic: int op int stays int, otherwise float. -/
def numArith (fi : Int → Int → Int) (fq : ℚ → ℚ → ℚ) : NumV → NumV → NumV
  | .i a, .i b => .i (fi a b)
  | a, b => .f (fq a.toQ b.toQ)

/-! ## Environments (src/src/utils/environment.py) on an explicit heap -/

/-- One `Environment` object: `enclosing` pointer and insertion-ordered
`values` dict. -/
structure Frame where
  enclosing : Option Nat
  values : List (String × LoxValue)

/-- Python dict assignment `d[k] = v`: overwrite in place, else append. -/
def dictSet (l : List (String × LoxValue)) (k : String) (v : LoxValue) :
    List (String × LoxValue) :=
  match l with
  | [] => [(k, v)]
  | (k2, v2) :: rest =>
      if k2 = k then (k, v) :: rest else (k2, v2) :: dictSet rest k v

/-- Python `d.get(k)` / `k in d` support. -/
def dictGet? (l : List (String × LoxValue)) (k : String) : Option LoxValue :=
  match l with
  | [] => none
  | (k2, v2) :: rest => if k2 = k then some v2 else dictGet? rest k

/-- Interpreter-global state: the frame heap, the id of the frame currently
held in `Interpreter._environment`, stdout lines from `print`, and the lines
sent to `logger.error`. -/
structure InterpState where
  envs : List Frame
  env : Nat
  output : List String
  errlog : List String

/-- Heap read; a dangling id cannot arise from the modelled operations. -/
def getFrame (s : InterpState) (i : Nat) : Frame :=
  (s.envs[i]?).getD { enclosing := none, values := [] }

def setFrame (s : InterpState) (i : Nat) (f : Frame) : InterpState :=
  { s with envs := s.envs.set i f }

/-- Allocate `Environment(enclosing)`; returns the fresh id. -/
def envPush (s : InterpState) (enclosing : Option Nat) : InterpState × Nat :=
  ({ s with envs := s.envs ++ [{ enclosing := enclosing, values := [] }] },
    s.envs.length)

/-- Embedding of `Environment.define` on frame `i` (environment.py 18-20). -/
def envDefine (s : InterpState) (i : Nat) (name : String) (v : LoxValue) :
    InterpState :=
  let f := getFrame s i
  setFrame s i { f with values := dictSet f.values name v }

/-- Embedding of `Environment.get` walking the `enclosing` chain (environment.py 36-42);
`gas` bounds the walk, which in Python terminates because the chain is
acyclic. -/
def envGetLoop (s : InterpState) (gas : Nat) (i : Nat) (name : String) :
    Except PyExc LoxValue :=
  match gas with
  | 0 => .error .fuelExhausted
  | gas + 1 =>
      let f := getFrame s i
      match dictGet? f.values name with
      | some v => .ok v
      | none =>
          match f.enclosing with
          | some j => envGetLoop s gas j name
          | none => .error (.runtimeError ("Undefined variable " ++ name ++ "."))

def envGet (s : InterpState) (i : Nat) (name : String) : Except PyExc LoxValue :=
  envGetLoop s (s.envs.length + 1) i name

/-- Embedding of `Environment.assign` walking the chain (environment.py 22-30). -/
def envAssignLoop (s : InterpState) (gas : Nat) (i : Nat) (name : String)
    (v : LoxValue) : Except PyExc Unit × InterpState :=
  match gas with
  | 0 => (.error .fuelExhausted, s)
  | gas + 1 =>
      let f := getFrame s i
      if (dictGet? f.values name).isSome then
        (.ok (), setFrame s i { f with values := dictSet f.values name v })
      else
        match f.enclosing with
        | some j => envAssignLoop s gas j name v
        | none =>
            (.error (.runtimeError ("Undefined variable " ++ name ++ ".")), s)

def envAssign (s : InterpState) (i : Nat) (name : String) (v : LoxValue) :
    Except PyExc Unit × InterpState :=
  envAssignLoop s (s.envs.length + 1) i name v


/-! ## Pure operator semantics (interpreter.py `visit_binary_expr`,
`visit_unary_expr`, after both operands are evaluated) -/

/-- Conversion from a literal payload to a runtime value; this includes the
`_converter` wrapping of Python `str` into `LoxString`. -/
def convertPrim : Prim → LoxValue
  | .nil => .nil
  | .boolean b => .boolean b
  | .intP n => .intV n
  | .floatP q => .floatV q
  | .strP s => .strV s

/-- Binary operator dispatch of `visit_binary_expr` (interpreter.py
323-376).  Arms raising `PyLoxTypeError` come from `_numeric_validation`
(`isinstance(x, (int, float))`, which accepts `bool`); the `+` arm instead
tests `type(x) in (int, float)`, which rejects `bool`.  `ZeroDivisionError`
is converted to a `PyLoxRuntimeError` only in the `/` and backslash arms;
in the `%` and power arms it would escape as a host exception. -/
def evalBinaryOp (op : BinOp) (left right : LoxValue) :
    Except PyExc LoxValue :=
  match op with
  | .minus =>
      match asNum left, asNum right with
      | some a, some b => .ok ((numArith (fun x y => x - y) (fun x y => x - y) a b).toValue)
      | _, _ => .error (.typeError "Operand must be a number for operator minus.")
  | .plus =>
      match left, right with
      | .intV a, .intV b => .ok (.intV (a + b))
      | .intV a, .floatV b => .ok (.floatV ((a : ℚ) + b))
      | .floatV a, .intV b => .ok (.floatV (a + (b : ℚ)))
      | .floatV a, .floatV b => .ok (.floatV (a + b))
      | .strV a, .strV b => .ok (.strV (a ++ b))
      | _, _ => .error (.runtimeError "Operands must be two numbers or two strings.")
  | .slash =>
      match asNum left, asNum right with
      | some a, some b =>
          if b.toQ = 0 then .error (.runtimeError "Division by zero.")
          else .ok (.floatV (a.toQ / b.toQ))
      | _, _ => .error (.typeError "Operand must be a number for operator slash.")
  | .backslash =>
      match asNum left, asNum right with
      | some (.i a), some (.i b) =>
          if b = 0 then .error (.runtimeError "Division by zero.")
          else .ok (.intV (Int.fdiv a b))
      | some a, some b =>
          if b.toQ = 0 then .error (.runtimeError "Division by zero.")
          else .ok (.floatV ((⌊a.toQ / b.toQ⌋ : Int) : ℚ))
      | _, _ => .error (.typeError "Operand must be a number for operator backslash.")
  | .star =>
      match asNum left, asNum right with
      | some a, some b => .ok ((numArith (fun x y => x * y) (fun x y => x * y) a b).toValue)
      | _, _ => .error (.typeError "Operand must be a number for operator star.")
  | .modulo =>
      match asNum left, asNum right with
      | some a, some b =>
          if b.toQ = 0 then .error (.hostError "ZeroDivisionError")
          else
            match a, b with
            | .i x, .i y => .ok (.intV (Int.fmod x y))
            | x, y => .ok (.floatV (x.toQ - y.toQ * (⌊x.toQ / y.toQ⌋ : Int)))
      | _, _ => .error (.typeError "Operand must be a number for operator modulo.")
  | .carat =>
      match asNum left, asNum right with
      | some (.i a), some (.i b) =>
          if 0 ≤ b then .ok (.intV (a ^ b.toNat))
          else if a = 0 then .error (.hostError "ZeroDivisionError")
          else .ok (.floatV ((a : ℚ) ^ b))
      | some _, some _ =>
          -- Real-valued float powers are outside the rational float model;
          -- no claim exercises this arm.
          .error (.hostError "float power not modelled")
      | _, _ => .error (.typeError "Operand must be a number for operator carat.")
  | .greater =>
      match asNum left, asNum right with
      | some a, some b => .ok (.boolean (b.toQ < a.toQ))
      | _, _ => .error (.typeError "Operand must be a number for operator greater.")
  | .greaterEqual =>
      match asNum left, asNum right with
      | some a, some b => .ok (.boolean (b.toQ ≤ a.toQ))
      | _, _ => .error (.typeError "Operand must be a number for operator greater equal.")
  | .less =>
      match asNum left, asNum right with
      | some a, some b => .ok (.boolean (a.toQ < b.toQ))
      | _, _ => .error (.typeError "Operand must be a number for operator less.")
  | .lessEqual =>
      match asNum left, asNum right with
      | some a, some b => .ok (.boolean (a.toQ ≤ b.toQ))
      | _, _ => .error (.typeError "Operand must be a number for operator less equal.")
  | .bangEqual => .ok (.boolean (! is_equal left right))
  | .equalEqual => .ok (.boolean (is_equal left right))

/-- Unary operator dispatch of `visit_unary_expr` (interpreter.py 301-311). -/
def evalUnaryOp (op : UnOp) (right : LoxValue) : Except PyExc LoxValue :=
  match op with
  | .minus =>
      match asNum right with
      | some (.i n) => .ok (.intV (-n))
      | some (.f q) => .ok (.floatV (-q))
      | none => .error (.typeError "Operand must be a number for operator minus.")
  | .bang => .ok (.boolean (! is_truthy right))

/-- Embedding of `LoxFunction.__call__` reads `this` via `closure.get_at(0, "this")`
(a raw dict access, KeyError on absence). -/
def envGetAt0 (s : InterpState) (i : Nat) (name : String) :
    Except PyExc LoxValue :=
  match dictGet? (getFrame s i).values name with
  | some v => .ok v
  | none => .error (.hostError "KeyError")


/-! ## The statement and expression executors (interpreter.py)

The resolver side map `Interpreter._locals` is empty for every program the
claims exercise (all their variable uses are global-style lookups, for which
the resolver records no depth), so `_lookup_variable` and `visit_assign_expr`
always take their dynamic-chain branch here. -/

mutual

/-- Embedding of `Interpreter._evaluate` restricted to expressions; dispatches like the
`visit_*_expr` visitors. -/
def evalExpr : Nat → Expr → InterpState → Except PyExc LoxValue × InterpState
  | 0, _, s => (.error .fuelExhausted, s)
  | fuel + 1, e, s =>
    match e with
    | .literal p => (.ok (convertPrim p), s)
    | .grouping inner => evalExpr fuel inner s
    | .unary op r =>
        match evalExpr fuel r s with
        | (.ok v, s1) => (evalUnaryOp op v, s1)
        | (.error e2, s1) => (.error e2, s1)
    | .binary l op r =>
        match evalExpr fuel l s with
        | (.error e2, s1) => (.error e2, s1)
        | (.ok lv, s1) =>
          match evalExpr fuel r s1 with
          | (.error e2, s2) => (.error e2, s2)
          | (.ok rv, s2) => (evalBinaryOp op lv rv, s2)
    | .logical l op r =>
        match evalExpr fuel l s with
        | (.error e2, s1) => (.error e2, s1)
        | (.ok lv, s1) =>
          match op with
          | .orOp => if is_truthy lv then (.ok lv, s1) else evalExpr fuel r s1
          | .andOp => if is_truthy lv then evalExpr fuel r s1 else (.ok lv, s1)
    | .variableE name => (envGet s s.env name, s)
    | .assign name v =>
        match evalExpr fuel v s with
        | (.error e2, s1) => (.error e2, s1)
        | (.ok vv, s1) =>
          match envAssign s1 s1.env name vv with
          | (.ok _, s2) => (.ok vv, s2)
          | (.error e2, s2) => (.error e2, s2)
    | .call callee args =>
        match evalExpr fuel callee s with
        | (.error e2, s1) => (.error e2, s1)
        | (.ok cv, s1) =>
          match evalArgs fuel args s1 with
          | (.error e2, s2) => (.error e2, s2)
          | (.ok avs, s2) =>
            match cv with
            | .function _ ps body clo isInit =>
                if avs.length ≠ ps.length then
                  (.error (.runtimeError "Wrong number of arguments."), s2)
                else
                  match callFunction fuel ps body clo isInit avs s2 with
                  | (.ok v, s3) => (.ok v, s3)
                  | (.error e2, s3) =>
                      if e2.isException then
                        let msg := "Error while calling function: " ++ e2.message
                        (.error (.runtimeError msg),
                          { s3 with errlog := s3.errlog ++ [msg] })
                      else (.error e2, s3)
            | _ => (.error (.runtimeError "Can only call functions and classes."), s2)
    | .get _ _ => (.error (.hostError "not modelled: property access"), s)
    | .setE _ _ _ => (.error (.hostError "not modelled: property assignment"), s)
    | .this => (.error (.hostError "not modelled: this"), s)
    | .superE _ => (.error (.hostError "not modelled: super"), s)
termination_by structural fuel e s => fuel

/-- Left-to-right evaluation of call arguments (interpreter.py 381). -/
def evalArgs : Nat → List Expr → InterpState →
    Except PyExc (List LoxValue) × InterpState
  | 0, _, s => (.error .fuelExhausted, s)
  | _ + 1, [], s => (.ok [], s)
  | fuel + 1, a :: rest, s =>
      match evalExpr fuel a s with
      | (.error e2, s1) => (.error e2, s1)
      | (.ok v, s1) =>
          match evalArgs fuel rest s1 with
          | (.error e2, s2) => (.error e2, s2)
          | (.ok vs, s2) => (.ok (v :: vs), s2)
termination_by structural fuel l s => fuel

/-- The `visit_*_stmt` visitors. -/
def execStmt : Nat → Stmt → InterpState → Except PyExc Unit × InterpState
  | 0, _, s => (.error .fuelExhausted, s)
  | fuel + 1, st, s =>
    match st with
    | .expression e =>
        match evalExpr fuel e s with
        | (.ok _, s1) => (.ok (), s1)
        | (.error e2, s1) => (.error e2, s1)
    | .print e =>
        match evalExpr fuel e s with
        | (.ok v, s1) => (.ok (), { s1 with output := s1.output ++ [stringify v] })
        | (.error e2, s1) => (.error e2, s1)
    | .varDecl name init =>
        match init with
        | none => (.ok (), envDefine s s.env name .nil)
        | some e =>
            match evalExpr fuel e s with
            | (.ok v, s1) => (.ok (), envDefine s1 s1.env name v)
            | (.error e2, s1) => (.error e2, s1)
    | .block stmts =>
        let (s1, nid) := envPush s (some s.env)
        execBlock fuel stmts nid s1
    | .ifS c t els =>
        match evalExpr fuel c s with
        | (.error e2, s1) => (.error e2, s1)
        | (.ok cv, s1) =>
            if is_truthy cv then execStmt fuel t s1
            else
              match els with
              | some eb => execStmt fuel eb s1
              | none => (.ok (), s1)
    | .whileS c b =>
        -- visit_while_stmt: the whole loop runs inside
        -- `try: ... except PyLoxRuntimeError: return`.
        match whileLoop fuel c b s with
        | (.error e2, s1) =>
            if e2.isPyLoxRuntimeError then (.ok (), s1) else (.error e2, s1)
        | (.ok _, s1) => (.ok (), s1)
    | .breakS => (.error (.breakSignal ("Break " ++ stringify .nil)), s)
    | .continueS => (.error (.continueSignal ("Continue " ++ stringify .nil)), s)
    | .returnS v =>
        match v with
        | none =>
            (.error (.returnSignal ("Return " ++ stringify .nil) .nil), s)
        | some e =>
            match evalExpr fuel e s with
            | (.ok vv, s1) =>
                (.error (.returnSignal ("Return " ++ stringify vv) vv), s1)
            | (.error e2, s1) => (.error e2, s1)
    | .throwS e =>
        match evalExpr fuel e s with
        | (.ok vv, s1) => (.error (.runtimeError (pyStr vv)), s1)
        | (.error e2, s1) => (.error e2, s1)
    | .tryS err tb cb fb =>
        let r1 := execStmt fuel tb s
        let afterHandler : Except PyExc Unit × InterpState :=
          match r1 with
          | (.ok _, s1) => (.ok (), s1)
          | (.error e2, s1) =>
              if e2.isException then
                match cb, err with
                | some cblock, some ename =>
                    execStmt fuel cblock (envDefine s1 s1.env ename (.strV e2.message))
                | _, _ => (.ok (), s1)
              else (.error e2, s1)
        match fb with
        | some fblock =>
            match execStmt fuel fblock afterHandler.2 with
            | (.ok _, s3) => (afterHandler.1, s3)
            | (.error ef, s3) => (.error ef, s3)
        | none => afterHandler
    | .function name params body =>
        (.ok (), envDefine s s.env name (.function name params body s.env false))
    | .classS _ _ _ => (.error (.hostError "not modelled: class declaration"), s)
termination_by structural fuel st s => fuel

/-- Sequential execution of a statement list (body of `interpret` and
`_execute_block`); the first exception aborts the remainder. -/
def execStmts : Nat → List Stmt → InterpState → Except PyExc Unit × InterpState
  | 0, _, s => (.error .fuelExhausted, s)
  | _ + 1, [], s => (.ok (), s)
  | fuel + 1, st :: rest, s =>
      match execStmt fuel st s with
      | (.ok _, s1) => execStmts fuel rest s1
      | (.error e2, s1) => (.error e2, s1)
termination_by structural fuel l s => fuel

/-- Embedding of `Interpreter._execute_block` (interpreter.py 145-153): swap in the given
environment, run the statements, and restore the previous environment in a
`finally`, i.e. on each of the ok and error paths. -/
def execBlock : Nat → List Stmt → Nat → InterpState →
    Except PyExc Unit × InterpState
  | 0, _, _, s => (.error .fuelExhausted, s)
  | fuel + 1, statements, environment, s =>
      let previous := s.env
      let (r, s1) := execStmts fuel statements { s with env := environment }
      (r, { s1 with env := previous })
termination_by structural fuel l i s => fuel

/-- Embedding of `LoxFunction.__call__` (callables.py 51-62): fresh frame over the
closure, parameters bound via `zip`, body through `_execute_block`,
`PyLoxReturnError` caught here and every other exception propagated. -/
def callFunction : Nat → List String → List Stmt → Nat → Bool →
    List LoxValue → InterpState → Except PyExc LoxValue × InterpState
  | 0, _, _, _, _, _, s => (.error .fuelExhausted, s)
  | fuel + 1, params, body, closure, isInit, args, s =>
  let (s1, envId) := envPush s (some closure)
  let s2 := (params.zip args).foldl
    (fun acc pa => envDefine acc envId pa.1 pa.2) s1
  match execBlock fuel body envId s2 with
  | (.error (.returnSignal _ v), s3) =>
      if isInit then (envGetAt0 s3 closure "this", s3) else (.ok v, s3)
  | (.error e2, s3) => (.error e2, s3)
  | (.ok _, s3) =>
      if isInit then (envGetAt0 s3 closure "this", s3) else (.ok .nil, s3)
termination_by structural fuel ps b c i a s => fuel

/-- The loop of `visit_while_stmt` (interpreter.py 242-250): condition,
body, and the inner `except PyLoxContinueError` handler, which re-runs the
last statement of a block body in a fresh environment and continues, and
raises for a non-block body. -/
def whileLoop : Nat → Expr → Stmt → InterpState → Except PyExc Unit × InterpState
  | 0, _, _, s => (.error .fuelExhausted, s)
  | fuel + 1, cond, body, s =>
      match evalExpr fuel cond s with
      | (.error e2, s1) => (.error e2, s1)
      | (.ok cv, s1) =>
          if is_truthy cv then
            match execStmt fuel body s1 with
            | (.ok _, s2) => whileLoop fuel cond body s2
            | (.error e2, s2) =>
                if e2.isContinue then
                  match body with
                  | .block stmts =>
                      match stmts.getLast? with
                      | some lastStmt =>
                          let (s3, nid) := envPush s2 (some s2.env)
                          match execBlock fuel [lastStmt] nid s3 with
                          | (.ok _, s4) => whileLoop fuel cond body s4
                          | (.error e3, s4) => (.error e3, s4)
                      | none => (.error (.hostError "IndexError"), s2)
                  | _ => (.error (.runtimeError "Continue must be inside a loop."), s2)
                else (.error e2, s2)
          else (.ok (), s1)
termination_by structural fuel c b s => fuel

end

/-- Embedding of `Interpreter.interpret` (interpreter.py 121-127): run the statements,
log an escaping `PyLoxRuntimeError` via `logger.error`; any other exception
(`PyLoxTypeError`, host exceptions, fuel) escapes `interpret` itself and is
returned as `some e`. -/
def interpret (fuel : Nat) (statements : List Stmt) (s : InterpState) :
    Option PyExc × InterpState :=
  match execStmts fuel statements s with
  | (.ok _, s1) => (none, s1)
  | (.error e2, s1) =>
      if e2.isPyLoxRuntimeError then
        (none, { s1 with errlog := s1.errlog ++ [e2.message] })
      else (some e2, s1)

/-- Interpreter start state: one global frame.  (`_load_builtins` would
populate it with built-in callables; no claim mentions a built-in, so the
registry is left empty.) -/
def initState : InterpState :=
  { envs := [{ enclosing := none, values := [] }]
    env := 0
    output := []
    errlog := [] }


/-! ## LoxHash `get`/`set` (src/src/internals/hash.py 33-66)

`LoxHash.fields` is a Python dict whose keys are runtime values; `str(k)` in
the fallback paths produces a Python `str`, a distinct key type that never
compares equal to a `LoxString` key (`LoxString.__eq__` accepts only other
`LoxString` values).  `LoxString` defines `__hash__` (string.py 164) and is
a usable dict key; the callables are dataclasses with `eq=True` and no
`__hash__`, hence unhashable: using one as a dict key raises `TypeError`
before the `try` in `Set.__call__` is reached. -/

inductive HKey where
  | v (val : LoxValue)
  | pystr (s : String)

/-- Python `==` across key types: `bool`, `int` and `float` compare by
numeric value (`1 == 1.0 == True`), everything else by type then value. -/
def pyKeyEq (a b : LoxValue) : Bool :=
  match asNum a, asNum b with
  | some x, some y => x.toQ = y.toQ
  | _, _ =>
      match a, b with
      | .nil, .nil => true
      | .strV x, .strV y => x = y
      | .function .., .function .. => pyEqSameType a b
      | _, _ => false

def hkeyEq : HKey → HKey → Bool
  | .v a, .v b => pyKeyEq a b
  | .pystr a, .pystr b => a = b
  | _, _ => false

/-- Python hashability of the modelled values: everything except the
callable dataclasses (`LoxString` is hashable via its explicit
`__hash__`). -/
def hashableKey : LoxValue → Bool
  | .function .. => false
  | _ => true

def hfields := List (HKey × LoxValue)

/-- Dict read, conflating a stored `None` with a miss exactly as
`dict.get` does from the point of view of the caller. -/
def hdictGet : List (HKey × LoxValue) → HKey → LoxValue
  | [], _ => .nil
  | (k2, v2) :: rest, k => if hkeyEq k2 k then v2 else hdictGet rest k

def hdictHas : List (HKey × LoxValue) → HKey → Bool
  | [], _ => false
  | (k2, _) :: rest, k => hkeyEq k2 k || hdictHas rest k

def hdictSet : List (HKey × LoxValue) → HKey → LoxValue → List (HKey × LoxValue)
  | [], k, v => [(k, v)]
  | (k2, v2) :: rest, k, v =>
      if hkeyEq k2 k then (k2, v) :: rest else (k2, v2) :: hdictSet rest k v

/-- Embedding of `Get.__call__` (hash.py 41-42):
`return self.parent.fields.get(arguments[0]) or
self.parent.fields.get(str(arguments[0]))` with Python `or`, i.e. the second
lookup is taken whenever the first result is falsy. -/
def hashGet (fields : List (HKey × LoxValue)) (k : LoxValue) :
    Except PyExc LoxValue :=
  if hashableKey k then
    let first := hdictGet fields (.v k)
    if pyTruthy first then .ok first
    else .ok (hdictGet fields (.pystr (pyStr k)))
  else .error (.hostError "TypeError: unhashable type")

/-- Embedding of `Set.__call__` (hash.py 54-66): update under the key if present, else
under its `str` image if that is present, else insert. -/
def hashSet (fields : List (HKey × LoxValue)) (k v : LoxValue) :
    Except PyExc (List (HKey × LoxValue)) :=
  if hashableKey k then
    if hdictHas fields (.v k) then .ok (hdictSet fields (.v k) v)
    else if hdictHas fields (.pystr (pyStr k)) then
      .ok (hdictSet fields (.pystr (pyStr k)) v)
    else .ok (hdictSet fields (.v k) v)
  else .error (.hostError "TypeError: unhashable type")

/-! ## Preprocessor (src/src/preprocessor.py `_resolve_imports`)

The filesystem is a finite map path to contents; `Path.exists` is domain
membership.  `HEADERS` is the fixed directory `src/headers`. -/

def fsRead (fs : List (String × String)) (path : String) : Option String :=
  match fs with
  | [] => none
  | (p, c) :: rest => if p = path then some c else fsRead rest path

/-- Python `\w` word characters (ASCII model). -/
def isWordChar (c : Char) : Bool :=
  c.isAlphanum || c = '_'

/-- Matcher for `IMPORT_PATTERN = re.compile(r"import\s+(?P<module><\w+>|\"\w+.lox\")")`
applied with `.match` (prefix match) to a stripped line; returns the text of
the `module` group.  The quoted alternative is `\w+` followed by one
arbitrary non-newline character and the literal `lox"`; the regex engine
prefers the longest word run that still lets the tail match. -/
def quotedSplit (chars : List Char) (maxLen : Nat) : Option Nat :=
  match maxLen with
  | 0 => none
  | l + 1 =>
      let n := l + 1
      match chars.drop n with
      | c :: 'l' :: 'o' :: 'x' :: '"' :: _ =>
          if c ≠ '\n' then some n else quotedSplit chars l
      | _ => quotedSplit chars l

def matchImport (line : String) : Option String :=
  match line.toList with
  | 'i' :: 'm' :: 'p' :: 'o' :: 'r' :: 't' :: c :: rest =>
      if c.isWhitespace then
        let rest2 := rest.dropWhile Char.isWhitespace
        match rest2 with
        | '<' :: more =>
            let w := more.takeWhile isWordChar
            if !w.isEmpty && (more.drop w.length).head? = some '>' then
              some (String.mk ('<' :: w ++ ['>']))
            else none
        | '"' :: more =>
            let w := more.takeWhile isWordChar
            match quotedSplit more w.length with
            | some n =>
                some (String.mk ('"' :: more.take n ++ (more.drop n).take 5))
            | none => none
        | _ => none
      else none
  | _ => none


/-- Python `str.strip` (ASCII whitespace model). -/
def pyStrip (s : String) : String :=
  String.mk
    (((s.toList.dropWhile Char.isWhitespace).reverse.dropWhile
        Char.isWhitespace).reverse)

/-- Python `str.splitlines` as used here: split on newline; the later
passes only look at each line stripped, for which this agrees. -/
def splitNl : List Char → List (List Char)
  | [] => [[]]
  | c :: rest =>
      if c = '\n' then [] :: splitNl rest
      else
        match splitNl rest with
        | [] => [[c]]
        | x :: xs => (c :: x) :: xs

/-- Python `str.startswith` on a single-character prefix. -/
def strStartsWithChar (s : String) (c : Char) : Bool :=
  s.toList.head? = some c

/-- List infix test: Python `pat in text` for strings. -/
def listIsPrefixB : List Char → List Char → Bool
  | [], _ => true
  | _ :: _, [] => false
  | p :: ps, c :: cs => p = c && listIsPrefixB ps cs

def listContainsSub (pat : List Char) : List Char → Bool
  | [] => pat.isEmpty
  | c :: cs => listIsPrefixB pat (c :: cs) || listContainsSub pat cs

def containsSub (pat text : String) : Bool :=
  listContainsSub pat.toList text.toList

/-- Python `str.replace`: replace every occurrence, leftmost first,
non-overlapping.  (Fuelled by the source length; the preprocessor never
calls it with an empty pattern.) -/
def listReplace (fuel : Nat) (s pat rep : List Char) : List Char :=
  match fuel with
  | 0 => s
  | fuel + 1 =>
      match s with
      | [] => []
      | c :: cs =>
          if listIsPrefixB pat s then
            rep ++ listReplace fuel (s.drop pat.length) pat rep
          else c :: listReplace fuel cs pat rep

def strReplace (s pat rep : String) : String :=
  String.mk (listReplace (s.toList.length + 1) s.toList pat.toList rep.toList)

/-- Resolution of the `module` group to a path (preprocessor.py 36-41):
angle imports resolve under the fixed `HEADERS` directory, quoted imports
are used as written (`as_posix` form throughout). -/
def resolveModulePath (module : String) : String :=
  if strStartsWithChar module '<' then
    "src/headers/" ++ ((module.drop 1).dropRight 1) ++ ".lox"
  else (module.drop 1).dropRight 1

/-- First pass of `_resolve_imports` (preprocessor.py 31-45): walk the
lines, collect `(path, module)` for each import whose resolved path exists
and was not collected before (`if path in paths or not path.exists():
continue`).  The dict `_includes` is keyed by the path, so insertion order
with path deduplication is exactly this list; the stored regex span and
line number are never read afterwards. -/
def collectIncludes (fs : List (String × String)) :
    List String → List String → List (String × String)
  | _, [] => []
  | paths, line :: rest =>
      let stripped := pyStrip line
      if stripped ≠ "" then
        match matchImport stripped with
        | some module =>
            let path := resolveModulePath module
            if path ∈ paths ∨ (fsRead fs path).isNone then
              collectIncludes fs paths rest
            else (path, module) :: collectIncludes fs (path :: paths) rest
        | none => collectIncludes fs paths rest
      else collectIncludes fs paths rest

/-- Second pass of `_resolve_imports` (preprocessor.py 46-50): for each
collected include, read the file, possibly append the
`var NAME = NAME();` default-instance line for angle headers declaring a
class without `init`, then `str.replace` the directive text — note that
`replace` rewrites every occurrence in the source. -/
def applyIncludes (fs : List (String × String)) :
    List (String × String) → String → String
  | [], source => source
  | (path, module) :: rest, source =>
      let text := (fsRead fs path).getD ""
      let inner := (module.drop 1).dropRight 1
      let text2 :=
        if strStartsWithChar module '<' && ! containsSub "init" text &&
            containsSub ("class " ++ inner) text then
          text ++ "\nvar " ++ inner ++ " = " ++ inner ++ "();"
        else text
      applyIncludes fs rest (strReplace source ("import " ++ module) text2)

/-- Embedding of `PreProcessor._resolve_imports`: the expanded source. -/
def resolveImports (source : String) (fs : List (String × String)) : String :=
  applyIncludes fs
    (collectIncludes fs [] ((splitNl source.toList).map String.mk)) source

/-- The `_includes` dict contents after preprocessing (path keys in
insertion order). -/
def includesOf (source : String) (fs : List (String × String)) :
    List (String × String) :=
  collectIncludes fs [] ((splitNl source.toList).map String.mk)


/-! ## Lexer (src/src/lexer/lexer.py, src/src/utils/cursor.py,
src/src/lexer/tokens.py)

The checked-in tokens.py defines the simple punctuation through `!`, the
complex operators through `<=`, the literal kinds, the 18 keywords and the
whitespace set.  The quote members and the backslash member referenced by
lexer.py (and `%`, the caret and the backslash referenced by parser.py and
interpreter.py) are taken from the spec token list, which names simple
punctuation `% ^` and the backslash floor-division token. -/

inductive TokenType where
  | LEFT_PAREN | RIGHT_PAREN | LEFT_BRACE | RIGHT_BRACE | COMMA | DOT
  | MINUS | PLUS | SEMICOLON | SLASH | STAR | BANG | MODULO | CARAT
  | BANG_EQUAL | EQUAL | EQUAL_EQUAL | GREATER | GREATER_EQUAL
  | LESS | LESS_EQUAL | BACKSLASH
  | IDENTIFIER | STRING | NUMBER
  | AND | CLASS | ELSE | FALSE | FUN | FOR | IF | NIL | OR | PRINT
  | RETURN | SUPER | THIS | TRUE | VAR | WHILE | BREAK | CONTINUE
  | EOF
deriving DecidableEq, Repr

/-- Pre-parsed literal payloads stored on tokens. -/
inductive Lit where
  | str (s : String)
  | int (n : Int)
  | float (q : ℚ)
deriving DecidableEq, Repr

structure Token where
  ttype : TokenType
  lexeme : String
  literal : Option Lit
  line : Nat
  column : Nat
deriving DecidableEq, Repr

/-- Embedding of `Cursor` (cursor.py): indices into the source plus line/column.  The
source is a Python `str`, modelled as `List Char`. -/
structure Cursor where
  current : Nat
  start : Nat
  line : Nat
  column : Nat
  source : List Char
deriving Repr

def Cursor.atEnd (c : Cursor) : Bool :=
  c.current ≥ c.source.length

/-- Embedding of `Cursor.advance`: move on and hand back the character just passed; all
call sites in lexer.py guard against the end of input. -/
def Cursor.advance (c : Cursor) : Cursor × Char :=
  ({ c with current := c.current + 1, column := c.column + 1 },
    c.source.getD c.current '\x00')

/-- Embedding of `Cursor.match`: conditional advance. -/
def Cursor.matchC (c : Cursor) (expected : Char) : Bool × Cursor :=
  if c.atEnd then (false, c)
  else if c.source.getD c.current '\x00' ≠ expected then (false, c)
  else (true, { c with current := c.current + 1, column := c.column + 1 })

/-- Embedding of `Cursor.peek` with explicit offset. -/
def Cursor.peekAt (c : Cursor) (offset : Nat) : Char :=
  if c.current + offset ≥ c.source.length then '\x00'
  else c.source.getD (c.current + offset) '\x00'

def Cursor.bumpLine (c : Cursor) : Cursor :=
  { c with line := c.line + 1, column := 1 }

/-- Embedding of `MiscTokenType.as_dict().values()`: space, tab, carriage return. -/
def miscChars : List Char := [' ', '\t', '\r']

/-- Embedding of `SimpleTokenType.as_dict().values()` of the checked-in tokens.py. -/
def simpleChars : List Char :=
  ['(', ')', '\x7b', '\x7d', ',', '.', '-', '+', ';', '/', '*', '!']

/-- The members of `ComplexTokenType.as_dict().values()` that are a single
character (`=`, `>`, `<`, and the backslash of the floor-division token,
which lexer.py references and the spec token list names); only these can
equal the dispatched char. -/
def complexSingleChars : List Char := ['=', '>', '<', '\\']

def simpleTokenOf : Char → TokenType
  | '(' => .LEFT_PAREN
  | ')' => .RIGHT_PAREN
  | '\x7b' => .LEFT_BRACE
  | '\x7d' => .RIGHT_BRACE
  | ',' => .COMMA
  | '.' => .DOT
  | '-' => .MINUS
  | '+' => .PLUS
  | ';' => .SEMICOLON
  | '/' => .SLASH
  | '*' => .STAR
  | '!' => .BANG
  | _ => .EOF

/-- Embedding of `KeywordTokenType.as_dict().values()` of the checked-in tokens.py. -/
def keywordList : List String :=
  ["and", "class", "else", "false", "fun", "for", "if", "nil", "or",
   "print", "return", "super", "this", "true", "var", "while", "break",
   "continue"]

def keywordType : String → TokenType
  | "and" => .AND
  | "class" => .CLASS
  | "else" => .ELSE
  | "false" => .FALSE
  | "fun" => .FUN
  | "for" => .FOR
  | "if" => .IF
  | "nil" => .NIL
  | "or" => .OR
  | "print" => .PRINT
  | "return" => .RETURN
  | "super" => .SUPER
  | "this" => .THIS
  | "true" => .TRUE
  | "var" => .VAR
  | "while" => .WHILE
  | "break" => .BREAK
  | "continue" => .CONTINUE
  | _ => .IDENTIFIER

/-- Lexer state: the cursor and the token list built so far. -/
structure LexState where
  cursor : Cursor
  tokens : List Token
deriving Repr

/-- Embedding of `Token.from_raw`: lexeme is `source[start:current]`, position is the
current cursor line and column. -/
def sliceLexeme (c : Cursor) : String :=
  String.mk ((c.source.drop c.start).take (c.current - c.start))

def addToken (st : LexState) (ttype : TokenType) (literal : Option Lit) :
    LexState :=
  { st with tokens := st.tokens ++
      [{ ttype := ttype, lexeme := sliceLexeme st.cursor, literal := literal,
         line := st.cursor.line, column := st.cursor.column }] }

/-- The scanning loop of `_read_identifier`:
`while peek().isalnum() or peek() == \"_\": advance()`. -/
def identLoop (fuel : Nat) (c : Cursor) : Cursor :=
  match fuel with
  | 0 => c
  | fuel + 1 =>
      if (c.peekAt 0).isAlphanum || c.peekAt 0 = '_' then
        identLoop fuel (c.advance).1
      else c

/-- Embedding of `Lexer._read_identifier` (lexer.py 48-63).  After consuming the lexeme
it raises `Invalid identifier` when the lexeme started at column 1 of its
line, is not a keyword, and has not appeared among the lexemes of earlier
IDENTIFIER tokens; otherwise it emits the keyword token or an IDENTIFIER. -/
def readIdentifier (st : LexState) : Except PyExc LexState :=
  let c1 := identLoop (c1fuel st.cursor) st.cursor
  let value := sliceLexeme c1
  let ids := st.tokens.filterMap
    (fun t => if t.ttype = .IDENTIFIER then some t.lexeme else none)
  let st1 := { st with cursor := c1 }
  if (c1.column : Int) - value.length = 1 ∧ value ∉ keywordList ∧ value ∉ ids
  then .error (.syntaxError "Invalid identifier")
  else if value ∈ keywordList then .ok (addToken st1 (keywordType value) none)
  else .ok (addToken st1 .IDENTIFIER (some (.str value)))
where
  c1fuel (c : Cursor) : Nat := c.source.length + 1 - c.current

/-- Numeric value of a digit run. -/
def digitsVal (l : List Char) : Nat :=
  l.foldl (fun acc c => acc * 10 + (c.toNat - 48)) 0

/-- The digit loops of `_read_number`. -/
def digitLoop (fuel : Nat) (c : Cursor) : Cursor :=
  match fuel with
  | 0 => c
  | fuel + 1 =>
      if (c.peekAt 0).isDigit then digitLoop fuel (c.advance).1 else c

/-- Embedding of `Lexer._read_number` (lexer.py 65-79).  Note the Python condition
`column - len == 1 and peek().isalpha() or peek() == \"_\"` groups as
`(A and B) or C`. -/
def readNumber (st : LexState) : Except PyExc LexState :=
  let c1 := digitLoop (st.cursor.source.length + 1 - st.cursor.current) st.cursor
  let (isFloat, c2) :=
    if c1.peekAt 0 = '.' ∧ (c1.peekAt 1).isDigit then
      (true, digitLoop (c1.source.length + 1 - c1.current) (c1.advance).1)
    else (false, c1)
  let value := sliceLexeme c2
  let st1 := { st with cursor := c2 }
  if ((c2.column : Int) - value.length = 1 ∧ (c2.peekAt 0).isAlpha) ∨
      c2.peekAt 0 = '_' then
    .error (.syntaxError "Invalid number")
  else
    let digits := (c2.source.drop c2.start).take (c2.current - c2.start)
    let lit :=
      if isFloat then
        let intPart := digits.takeWhile (fun c => c ≠ '.')
        let fracPart := (digits.dropWhile (fun c => c ≠ '.')).drop 1
        Lit.float ((digitsVal intPart : ℚ) +
          (digitsVal fracPart : ℚ) / ((10 : ℚ) ^ fracPart.length))
      else Lit.int (digitsVal digits)
    .ok (addToken st1 .NUMBER (some lit))

/-- The scanning loop of `_read_string`. -/
def stringLoop (fuel : Nat) (terminator : Char) (c : Cursor) : Cursor :=
  match fuel with
  | 0 => c
  | fuel + 1 =>
      if c.peekAt 0 ≠ terminator ∧ ¬ c.atEnd then
        let c2 := if c.peekAt 0 = '\n' then c.bumpLine else c
        stringLoop fuel terminator (c2.advance).1
      else c

/-- Embedding of `Lexer._read_string` (lexer.py 35-46). -/
def readString (st : LexState) (terminator : Char) : Except PyExc LexState :=
  let c1 := stringLoop (st.cursor.source.length + 1) terminator st.cursor
  if c1.atEnd then .error (.valueError "Unterminated string.")
  else
    let c2 := (c1.advance).1
    let value := String.mk
      ((c2.source.drop (c2.start + 1)).take (c2.current - 1 - (c2.start + 1)))
    .ok (addToken { st with cursor := c2 } .STRING (some (.str value)))

/-- The block-comment loop of `_read_comment`; the loop condition calls
`match("*")` and then possibly `match("/")`, consuming as a side effect even
when the pair does not complete. -/
def blockCommentLoop (fuel : Nat) (c : Cursor) : Cursor :=
  match fuel with
  | 0 => c
  | fuel + 1 =>
      if c.atEnd then c
      else
        let (m1, c1) := c.matchC '*'
        if m1 then
          let (m2, c2) := c1.matchC '/'
          if m2 then c2
          else
            let c3 := if c2.peekAt 0 = '\n' then c2.bumpLine else c2
            blockCommentLoop fuel (c3.advance).1
        else
          let c3 := if c1.peekAt 0 = '\n' then c1.bumpLine else c1
          blockCommentLoop fuel (c3.advance).1

/-- The line-comment loop of `_read_comment`. -/
def lineCommentLoop (fuel : Nat) (c : Cursor) : Cursor :=
  match fuel with
  | 0 => c
  | fuel + 1 =>
      if c.peekAt 0 ≠ '\n' ∧ ¬ c.atEnd then lineCommentLoop fuel (c.advance).1
      else c

/-- Embedding of `Lexer._read_comment` (lexer.py 81-97).  After the block loop the code
tests `at_end` unconditionally, so a comment closed exactly at the end of
input is still reported as unterminated. -/
def readComment (st : LexState) : Except PyExc LexState :=
  let (m1, c1) := st.cursor.matchC '/'
  if m1 then
    .ok { st with cursor := lineCommentLoop (c1.source.length + 1) c1 }
  else
    let (m2, c2) := c1.matchC '*'
    if m2 then
      let c3 := blockCommentLoop (c2.source.length + 1) c2
      if c3.atEnd then .error (.syntaxError "Unterminated comment.")
      else .ok { st with cursor := c3 }
    else .ok (addToken { st with cursor := c2 } .SLASH none)

/-- Embedding of `Lexer._read_complex` (lexer.py 99-105).  The backslash test runs
`match` first, consuming a following backslash even when the dispatched
char is not a backslash. -/
def readComplex (st : LexState) (char : Char) : Except PyExc LexState :=
  let (m1, c1) := st.cursor.matchC '='
  if m1 then
    if char = '=' then .ok (addToken { st with cursor := c1 } .EQUAL_EQUAL none)
    else if char = '>' then
      .ok (addToken { st with cursor := c1 } .GREATER_EQUAL none)
    else if char = '<' then
      .ok (addToken { st with cursor := c1 } .LESS_EQUAL none)
    else
      -- a backslash followed by an equals sign: `ComplexTokenType("\\=")`
      -- has no member and raises ValueError in Python
      .error (.hostError "ValueError")
  else
    let (m2, c2) := c1.matchC '\\'
    if m2 ∧ char = '\\' then
      .ok (addToken { st with cursor := c2 } .BACKSLASH none)
    else
      let t : TokenType :=
        if char = '=' then .EQUAL
        else if char = '>' then .GREATER
        else if char = '<' then .LESS
        else .BACKSLASH
      .ok (addToken { st with cursor := c2 } t none)

/-- Embedding of `Lexer._scan_token` (lexer.py 107-128): dispatch on the consumed
character, in source order. -/
def scanToken (st : LexState) : Except PyExc LexState :=
  let (c0, ch) := st.cursor.advance
  let st1 := { st with cursor := c0 }
  if ch ∈ miscChars then .ok st1
  else if ch = '/' then readComment st1
  else if ch ∈ complexSingleChars then readComplex st1 ch
  else if ch ∈ simpleChars then .ok (addToken st1 (simpleTokenOf ch) none)
  else if ch = '\n' then .ok { st1 with cursor := c0.bumpLine }
  else if ch = '"' ∨ ch = '\'' then readString st1 ch
  else if ch.isAlpha ∨ ch = '_' then readIdentifier st1
  else if ch.isDigit then readNumber st1
  else .error (.syntaxError "Unexpected character")

/-- The loop of `Lexer.scan_tokens` (lexer.py 130-137). -/
def scanLoop (fuel : Nat) (st : LexState) : Except PyExc LexState :=
  match fuel with
  | 0 => .error .fuelExhausted
  | fuel + 1 =>
      if st.cursor.atEnd then .ok st
      else
        match scanToken
          { st with cursor := { st.cursor with start := st.cursor.current } } with
        | .ok st2 => scanLoop fuel st2
        | .error e => .error e

/-- Embedding of `Lexer.scan_tokens`: scan to the end and append the EOF token (built by
`Token.from_raw` from the final cursor, hence with the final slice as its
lexeme). -/
def scanTokens (fuel : Nat) (source : List Char) : Except PyExc (List Token) :=
  match scanLoop fuel
    { cursor := { current := 0, start := 0, line := 1, column := 1,
                  source := source },
      tokens := [] } with
  | .error e => .error e
  | .ok st =>
      .ok (st.tokens ++
        [{ ttype := .EOF, lexeme := sliceLexeme st.cursor, literal := none,
           line := st.cursor.line, column := st.cursor.column }])


/-! ## Parser (src/src/parser/parser.py)

State mirrors the `Parser` object: token list, `_current`, `_has_error`,
`_debug` (constructor default `True`; `PyLox.run` builds the parser without
overriding it) and the lines sent to `logger.error`. -/

structure PState where
  tokens : List Token
  current : Nat
  hasError : Bool
  debug : Bool
  errlog : List String
deriving Repr

def eofToken : Token :=
  { ttype := .EOF, lexeme := "", literal := none, line := 0, column := 0 }

/-- Embedding of `Parser._peek`; the scanner terminates every stream with EOF, so the
default is unreachable on scanner output. -/
def pPeek (st : PState) : Token :=
  st.tokens.getD st.current eofToken

/-- Embedding of `Parser._previous` (Python `tokens[current - 1]`). -/
def pPrev (st : PState) : Token :=
  st.tokens.getD (st.current - 1) eofToken

def pAtEnd (st : PState) : Bool :=
  (pPeek st).ttype = .EOF

/-- Embedding of `Parser._advance`. -/
def pAdvance (st : PState) : PState × Token :=
  let st2 := if pAtEnd st then st else { st with current := st.current + 1 }
  (st2, pPrev st2)

/-- Embedding of `Parser._check`. -/
def pCheck (st : PState) (tt : TokenType) : Bool :=
  if pAtEnd st then false else (pPeek st).ttype = tt

/-- Embedding of `Parser._match`. -/
def pMatch (st : PState) (tts : List TokenType) : Bool × PState :=
  match tts with
  | [] => (false, st)
  | tt :: rest =>
      if pCheck st tt then (true, (pAdvance st).1) else pMatch st rest

/-- Embedding of `Parser._error` (parser.py 90-94): log the message when not in debug
mode, then always raise `PyLoxParseError`. -/
def pError (st : PState) (msg : String) : PyExc × PState :=
  if st.debug then (.parseError msg, st)
  else (.parseError msg, { st with errlog := st.errlog ++ [msg] })

/-- Embedding of `Parser._consume`. -/
def pConsume (st : PState) (tt : TokenType) (msg : String) :
    Except PyExc Token × PState :=
  if pCheck st tt then
    let (st2, tok) := pAdvance st
    (.ok tok, st2)
  else
    let (e, st2) := pError st ("Expected token. " ++ msg)
    (.error e, st2)

/-- The loop of `Parser._synchronize` (parser.py 104-121). -/
def pSyncLoop (fuel : Nat) (st : PState) : PState :=
  match fuel with
  | 0 => st
  | fuel + 1 =>
      if pAtEnd st then st
      else if (pPrev st).ttype = .SEMICOLON then st
      else if (pPeek st).ttype ∈
          ([.CLASS, .FUN, .VAR, .FOR, .IF, .WHILE, .PRINT, .RETURN] :
            List TokenType) then st
      else pSyncLoop fuel (pAdvance st).1

def pSynchronize (st : PState) : PState :=
  pSyncLoop (st.tokens.length + 1) (pAdvance st).1

/-- Mapping of operator token types to the AST operator enums. -/
def binOpOf : TokenType → BinOp
  | .MINUS => .minus
  | .PLUS => .plus
  | .SLASH => .slash
  | .BACKSLASH => .backslash
  | .STAR => .star
  | .MODULO => .modulo
  | .CARAT => .carat
  | .GREATER => .greater
  | .GREATER_EQUAL => .greaterEqual
  | .LESS => .less
  | .LESS_EQUAL => .lessEqual
  | .BANG_EQUAL => .bangEqual
  | _ => .equalEqual

/-- Embedding of `Literal(self._previous().literal)` for NUMBER and STRING tokens. -/
def primOfLit : Option Lit → Prim
  | some (.str s) => .strP s
  | some (.int n) => .intP n
  | some (.float q) => .floatP q
  | none => .nil

mutual

/-- Embedding of `Parser._declaration` (parser.py 132-147): dispatch to the declaration
parsers, catching `PyLoxParseError`; in debug mode the handler calls
`_error` again, re-raising out of `parse`; otherwise it sets the error
flag, synchronizes and yields `None`. -/
def pDeclaration : Nat → PState → Except PyExc (Option Stmt) × PState
  | 0, st => (.error .fuelExhausted, st)
  | fuel + 1, st =>
      let attempt : Except PyExc Stmt × PState :=
        let (m1, st1) := pMatch st [.VAR]
        if m1 then pVarDecl fuel st1
        else
          let (m2, st2) := pMatch st1 [.FUN]
          if m2 then pFunctionDecl fuel "function" st2
          else
            let (m3, st3) := pMatch st2 [.CLASS]
            if m3 then pClassDecl fuel st3
            else pStatement fuel st3
      match attempt with
      | (.ok d, st4) => (.ok (some d), st4)
      | (.error e, st4) =>
          match e with
          | .parseError msg =>
              if st4.debug then
                let (e2, st5) := pError st4 ("Parse Error " ++ msg)
                (.error e2, st5)
              else
                (.ok none, pSynchronize { st4 with hasError := true })
          | _ => (.error e, st4)

/-- Embedding of `Parser._class_declaration` (parser.py 149-164). -/
def pClassDecl : Nat → PState → Except PyExc Stmt × PState
  | 0, st => (.error .fuelExhausted, st)
  | fuel + 1, st =>
      match pConsume st .IDENTIFIER "Expected class name." with
      | (.error e, st1) => (.error e, st1)
      | (.ok name, st1) =>
        let (m1, st2) := pMatch st1 [.LESS]
        let superAfter : Except PyExc (Option String) × PState :=
          if m1 then
            match pConsume st2 .IDENTIFIER "Expected superclass name." with
            | (.error e, st3) => (.error e, st3)
            | (.ok _, st3) => (.ok (some (pPrev st3).lexeme), st3)
          else (.ok none, st2)
        match superAfter with
        | (.error e, st3) => (.error e, st3)
        | (.ok superName, st3) =>
          match pConsume st3 .LEFT_BRACE "Expected brace before class body." with
          | (.error e, st4) => (.error e, st4)
          | (.ok _, st4) =>
            match pMethodsLoop fuel st4 with
            | (.error e, st5) => (.error e, st5)
            | (.ok methods, st5) =>
              match pConsume st5 .RIGHT_BRACE "Expected brace after class body." with
              | (.error e, st6) => (.error e, st6)
              | (.ok _, st6) => (.ok (.classS name.lexeme superName methods), st6)

/-- The method-collection loop inside `_class_declaration`. -/
def pMethodsLoop : Nat → PState → Except PyExc (List Stmt) × PState
  | 0, st => (.error .fuelExhausted, st)
  | fuel + 1, st =>
      if ¬ pCheck st .RIGHT_BRACE ∧ ¬ pAtEnd st then
        match pFunctionDecl fuel "method" st with
        | (.error e, st1) => (.error e, st1)
        | (.ok m, st1) =>
            match pMethodsLoop fuel st1 with
            | (.error e, st2) => (.error e, st2)
            | (.ok ms, st2) => (.ok (m :: ms), st2)
      else (.ok [], st)

/-- Embedding of `Parser._function_declaration` (parser.py 166-187), including the
255-parameter limit raised through `_error`. -/
def pFunctionDecl : Nat → String → PState → Except PyExc Stmt × PState
  | 0, _, st => (.error .fuelExhausted, st)
  | fuel + 1, kind, st =>
      match pConsume st .IDENTIFIER ("Expected " ++ kind ++ " name.") with
      | (.error e, st1) => (.error e, st1)
      | (.ok name, st1) =>
        match pConsume st1 .LEFT_PAREN "Expected paren after name." with
        | (.error e, st2) => (.error e, st2)
        | (.ok _, st2) =>
          let paramsRes : Except PyExc (List String) × PState :=
            if ¬ pCheck st2 .RIGHT_PAREN then pParamsLoop fuel [] st2
            else (.ok [], st2)
          match paramsRes with
          | (.error e, st3) => (.error e, st3)
          | (.ok params, st3) =>
            match pConsume st3 .RIGHT_PAREN "Expected paren after parameters." with
            | (.error e, st4) => (.error e, st4)
            | (.ok _, st4) =>
              match pConsume st4 .LEFT_BRACE "Expected brace before body." with
              | (.error e, st5) => (.error e, st5)
              | (.ok _, st5) =>
                match pBlockList fuel st5 with
                | (.error e, st6) => (.error e, st6)
                | (.ok body, st6) => (.ok (.function name.lexeme params body), st6)

/-- The parameter loop of `_function_declaration` (parser.py 176-183). -/
def pParamsLoop : Nat → List String → PState → Except PyExc (List String) × PState
  | 0, _, st => (.error .fuelExhausted, st)
  | fuel + 1, acc, st =>
      if acc.length ≥ 255 then
        let (e, st1) := pError st "Cannot have more than 255 parameters"
        (.error e, st1)
      else
        match pConsume st .IDENTIFIER "Expected parameter name." with
        | (.error e, st1) => (.error e, st1)
        | (.ok p, st1) =>
            let (m, st2) := pMatch st1 [.COMMA]
            if m then pParamsLoop fuel (acc ++ [p.lexeme]) st2
            else (.ok (acc ++ [p.lexeme]), st2)

/-- Embedding of `Parser._var_declaration` (parser.py 189-199). -/
def pVarDecl : Nat → PState → Except PyExc Stmt × PState
  | 0, st => (.error .fuelExhausted, st)
  | fuel + 1, st =>
      match pConsume st .IDENTIFIER "Expected variable name." with
      | (.error e, st1) => (.error e, st1)
      | (.ok name, st1) =>
        let (m, st2) := pMatch st1 [.EQUAL]
        let initRes : Except PyExc (Option Expr) × PState :=
          if m then
            match pAssignment fuel st2 with
            | (.error e, st3) => (.error e, st3)
            | (.ok e2, st3) => (.ok (some e2), st3)
          else (.ok none, st2)
        match initRes with
        | (.error e, st3) => (.error e, st3)
        | (.ok initializer, st3) =>
          match pConsume st3 .SEMICOLON "Expected semicolon after variable declaration." with
          | (.error e, st4) => (.error e, st4)
          | (.ok _, st4) => (.ok (.varDecl name.lexeme initializer), st4)

/-- Embedding of `Parser._statement` (parser.py 201-222). -/
def pStatement : Nat → PState → Except PyExc Stmt × PState
  | 0, st => (.error .fuelExhausted, st)
  | fuel + 1, st =>
      let (mFor, st1) := pMatch st [.FOR]
      if mFor then pForStatement fuel st1
      else
        let (mIf, st2) := pMatch st1 [.IF]
        if mIf then pIfStatement fuel st2
        else
          let (mPrint, st3) := pMatch st2 [.PRINT]
          if mPrint then
            match pAssignment fuel st3 with
            | (.error e, st4) => (.error e, st4)
            | (.ok v, st4) =>
              match pConsume st4 .SEMICOLON "Expected semicolon after value." with
              | (.error e, st5) => (.error e, st5)
              | (.ok _, st5) => (.ok (.print v), st5)
          else
            let (mRet, st4) := pMatch st3 [.RETURN]
            if mRet then
              let valRes : Except PyExc (Option Expr) × PState :=
                if ¬ pCheck st4 .SEMICOLON then
                  match pAssignment fuel st4 with
                  | (.error e, st5) => (.error e, st5)
                  | (.ok v, st5) => (.ok (some v), st5)
                else (.ok none, st4)
              match valRes with
              | (.error e, st5) => (.error e, st5)
              | (.ok v, st5) =>
                match pConsume st5 .SEMICOLON "Expected semicolon after return value." with
                | (.error e, st6) => (.error e, st6)
                | (.ok _, st6) => (.ok (.returnS v), st6)
            else
              let (mWhile, st5) := pMatch st4 [.WHILE]
              if mWhile then pWhileStatement fuel st5
              else
                let (mBreak, st6) := pMatch st5 [.BREAK]
                if mBreak then
                  match pConsume st6 .SEMICOLON "Expected semicolon after break." with
                  | (.error e, st7) => (.error e, st7)
                  | (.ok _, st7) => (.ok .breakS, st7)
                else
                  let (mCont, st7) := pMatch st6 [.CONTINUE]
                  if mCont then
                    match pConsume st7 .SEMICOLON "Expected semicolon after continue." with
                    | (.error e, st8) => (.error e, st8)
                    | (.ok _, st8) => (.ok .continueS, st8)
                  else
                    let (mBrace, st8) := pMatch st7 [.LEFT_BRACE]
                    if mBrace then
                      match pBlockList fuel st8 with
                      | (.error e, st9) => (.error e, st9)
                      | (.ok stmts, st9) => (.ok (.block stmts), st9)
                    else pExprStatement fuel st8

/-- Embedding of `Parser._for_statement` (parser.py 224-252): parse-time desugaring. -/
def pForStatement : Nat → PState → Except PyExc Stmt × PState
  | 0, st => (.error .fuelExhausted, st)
  | fuel + 1, st =>
      match pConsume st .LEFT_PAREN "Expected paren after for." with
      | (.error e, st1) => (.error e, st1)
      | (.ok _, st1) =>
        let initRes : Except PyExc (Option Stmt) × PState :=
          let (mSemi, st2) := pMatch st1 [.SEMICOLON]
          if mSemi then (.ok none, st2)
          else
            let (mVar, st3) := pMatch st2 [.VAR]
            if mVar then
              match pVarDecl fuel st3 with
              | (.error e, st4) => (.error e, st4)
              | (.ok d, st4) => (.ok (some d), st4)
            else
              match pExprStatement fuel st3 with
              | (.error e, st4) => (.error e, st4)
              | (.ok d, st4) => (.ok (some d), st4)
        match initRes with
        | (.error e, st2) => (.error e, st2)
        | (.ok initializer, st2) =>
          let condRes : Except PyExc (Option Expr) × PState :=
            if ¬ pCheck st2 .SEMICOLON then
              match pAssignment fuel st2 with
              | (.error e, st3) => (.error e, st3)
              | (.ok c, st3) => (.ok (some c), st3)
            else (.ok none, st2)
          match condRes with
          | (.error e, st3) => (.error e, st3)
          | (.ok condition, st3) =>
            match pConsume st3 .SEMICOLON "Expected semicolon after loop condition." with
            | (.error e, st4) => (.error e, st4)
            | (.ok _, st4) =>
              let incRes : Except PyExc (Option Expr) × PState :=
                if ¬ pCheck st4 .RIGHT_PAREN then
                  match pAssignment fuel st4 with
                  | (.error e, st5) => (.error e, st5)
                  | (.ok i, st5) => (.ok (some i), st5)
                else (.ok none, st4)
              match incRes with
              | (.error e, st5) => (.error e, st5)
              | (.ok increment, st5) =>
                match pConsume st5 .RIGHT_PAREN "Expected paren after for clauses." with
                | (.error e, st6) => (.error e, st6)
                | (.ok _, st6) =>
                  match pStatement fuel st6 with
                  | (.error e, st7) => (.error e, st7)
                  | (.ok body0, st7) =>
                    let body1 :=
                      match increment with
                      | some inc => Stmt.block [body0, .expression inc]
                      | none => body0
                    let cond :=
                      condition.getD (.literal (.boolean true))
                    let body2 := Stmt.whileS cond body1
                    let body3 :=
                      match initializer with
                      | some ini => Stmt.block [ini, body2]
                      | none => body2
                    (.ok body3, st7)

/-- Embedding of `Parser._if_statement` (parser.py 254-266). -/
def pIfStatement : Nat → PState → Except PyExc Stmt × PState
  | 0, st => (.error .fuelExhausted, st)
  | fuel + 1, st =>
      match pConsume st .LEFT_PAREN "Expected paren after if." with
      | (.error e, st1) => (.error e, st1)
      | (.ok _, st1) =>
        match pAssignment fuel st1 with
        | (.error e, st2) => (.error e, st2)
        | (.ok cond, st2) =>
          match pConsume st2 .RIGHT_PAREN "Expected paren after if condition." with
          | (.error e, st3) => (.error e, st3)
          | (.ok _, st3) =>
            match pStatement fuel st3 with
            | (.error e, st4) => (.error e, st4)
            | (.ok thenB, st4) =>
              let (mElse, st5) := pMatch st4 [.ELSE]
              if mElse then
                match pStatement fuel st5 with
                | (.error e, st6) => (.error e, st6)
                | (.ok elseB, st6) => (.ok (.ifS cond thenB (some elseB)), st6)
              else (.ok (.ifS cond thenB none), st5)

/-- Embedding of `Parser._while_statement` (parser.py 289-298). -/
def pWhileStatement : Nat → PState → Except PyExc Stmt × PState
  | 0, st => (.error .fuelExhausted, st)
  | fuel + 1, st =>
      match pConsume st .LEFT_PAREN "Expected paren after while." with
      | (.error e, st1) => (.error e, st1)
      | (.ok _, st1) =>
        match pAssignment fuel st1 with
        | (.error e, st2) => (.error e, st2)
        | (.ok cond, st2) =>
          match pConsume st2 .RIGHT_PAREN "Expected paren after condition." with
          | (.error e, st3) => (.error e, st3)
          | (.ok _, st3) =>
            match pStatement fuel st3 with
            | (.error e, st4) => (.error e, st4)
            | (.ok body, st4) => (.ok (.whileS cond body), st4)

/-- Embedding of `Parser._expression_statement` (parser.py 318-325). -/
def pExprStatement : Nat → PState → Except PyExc Stmt × PState
  | 0, st => (.error .fuelExhausted, st)
  | fuel + 1, st =>
      match pAssignment fuel st with
      | (.error e, st1) => (.error e, st1)
      | (.ok e2, st1) =>
        match pConsume st1 .SEMICOLON "Expected semicolon after expression." with
        | (.error e, st2) => (.error e, st2)
        | (.ok _, st2) => (.ok (.expression e2), st2)

/-- Embedding of `Parser._block` (parser.py 123-130): declarations until the closing
brace; `None` results from recovered errors are dropped. -/
def pBlockList : Nat → PState → Except PyExc (List Stmt) × PState
  | 0, st => (.error .fuelExhausted, st)
  | fuel + 1, st =>
      if ¬ pCheck st .RIGHT_BRACE ∧ ¬ pAtEnd st then
        match pDeclaration fuel st with
        | (.error e, st1) => (.error e, st1)
        | (.ok d, st1) =>
            match pBlockList fuel st1 with
            | (.error e, st2) => (.error e, st2)
            | (.ok ds, st2) =>
                match d with
                | some d2 => (.ok (d2 :: ds), st2)
                | none => (.ok ds, st2)
      else
        match pConsume st .RIGHT_BRACE "Expected brace after block." with
        | (.error e, st1) => (.error e, st1)
        | (.ok _, st1) => (.ok [], st1)

/-- Embedding of `Parser._assignment` (parser.py 327-341). -/
def pAssignment : Nat → PState → Except PyExc Expr × PState
  | 0, st => (.error .fuelExhausted, st)
  | fuel + 1, st =>
      match pOr fuel st with
      | (.error e, st1) => (.error e, st1)
      | (.ok expr, st1) =>
        let (mEq, st2) := pMatch st1 [.EQUAL]
        if mEq then
          match pAssignment fuel st2 with
          | (.error e, st3) => (.error e, st3)
          | (.ok value, st3) =>
            match expr with
            | .variableE name => (.ok (.assign name value), st3)
            | .get obj name => (.ok (.setE obj name value), st3)
            | _ =>
                let (e, st4) := pError st3 "Invalid assignment target."
                (.error e, st4)
        else (.ok expr, st2)

/-- Embedding of `Parser._or` (parser.py 343-352). -/
def pOr : Nat → PState → Except PyExc Expr × PState
  | 0, st => (.error .fuelExhausted, st)
  | fuel + 1, st =>
      match pAnd fuel st with
      | (.error e, st1) => (.error e, st1)
      | (.ok expr, st1) => pOrLoop fuel expr st1

def pOrLoop : Nat → Expr → PState → Except PyExc Expr × PState
  | 0, _, st => (.error .fuelExhausted, st)
  | fuel + 1, expr, st =>
      let (m, st1) := pMatch st [.OR]
      if m then
        match pAnd fuel st1 with
        | (.error e, st2) => (.error e, st2)
        | (.ok right, st2) => pOrLoop fuel (.logical expr .orOp right) st2
      else (.ok expr, st1)

/-- Embedding of `Parser._and` (parser.py 354-363). -/
def pAnd : Nat → PState → Except PyExc Expr × PState
  | 0, st => (.error .fuelExhausted, st)
  | fuel + 1, st =>
      match pEquality fuel st with
      | (.error e, st1) => (.error e, st1)
      | (.ok expr, st1) => pAndLoop fuel expr st1

def pAndLoop : Nat → Expr → PState → Except PyExc Expr × PState
  | 0, _, st => (.error .fuelExhausted, st)
  | fuel + 1, expr, st =>
      let (m, st1) := pMatch st [.AND]
      if m then
        match pEquality fuel st1 with
        | (.error e, st2) => (.error e, st2)
        | (.ok right, st2) => pAndLoop fuel (.logical expr .andOp right) st2
      else (.ok expr, st1)

/-- Embedding of `Parser._equality` (parser.py 365-374). -/
def pEquality : Nat → PState → Except PyExc Expr × PState
  | 0, st => (.error .fuelExhausted, st)
  | fuel + 1, st =>
      match pComparison fuel st with
      | (.error e, st1) => (.error e, st1)
      | (.ok expr, st1) => pEqualityLoop fuel expr st1

def pEqualityLoop : Nat → Expr → PState → Except PyExc Expr × PState
  | 0, _, st => (.error .fuelExhausted, st)
  | fuel + 1, expr, st =>
      let (m, st1) := pMatch st [.BANG_EQUAL, .EQUAL_EQUAL]
      if m then
        let op := binOpOf (pPrev st1).ttype
        match pComparison fuel st1 with
        | (.error e, st2) => (.error e, st2)
        | (.ok right, st2) => pEqualityLoop fuel (.binary expr op right) st2
      else (.ok expr, st1)

/-- Embedding of `Parser._comparison` (parser.py 376-387). -/
def pComparison : Nat → PState → Except PyExc Expr × PState
  | 0, st => (.error .fuelExhausted, st)
  | fuel + 1, st =>
      match pTerm fuel st with
      | (.error e, st1) => (.error e, st1)
      | (.ok expr, st1) => pComparisonLoop fuel expr st1

def pComparisonLoop : Nat → Expr → PState → Except PyExc Expr × PState
  | 0, _, st => (.error .fuelExhausted, st)
  | fuel + 1, expr, st =>
      let (m, st1) := pMatch st [.GREATER, .GREATER_EQUAL, .LESS, .LESS_EQUAL]
      if m then
        let op := binOpOf (pPrev st1).ttype
        match pTerm fuel st1 with
        | (.error e, st2) => (.error e, st2)
        | (.ok right, st2) => pComparisonLoop fuel (.binary expr op right) st2
      else (.ok expr, st1)

/-- Embedding of `Parser._term` (parser.py 389-398). -/
def pTerm : Nat → PState → Except PyExc Expr × PState
  | 0, st => (.error .fuelExhausted, st)
  | fuel + 1, st =>
      match pFactor fuel st with
      | (.error e, st1) => (.error e, st1)
      | (.ok expr, st1) => pTermLoop fuel expr st1

def pTermLoop : Nat → Expr → PState → Except PyExc Expr × PState
  | 0, _, st => (.error .fuelExhausted, st)
  | fuel + 1, expr, st =>
      let (m, st1) := pMatch st [.MINUS, .PLUS, .BACKSLASH]
      if m then
        let op := binOpOf (pPrev st1).ttype
        match pFactor fuel st1 with
        | (.error e, st2) => (.error e, st2)
        | (.ok right, st2) => pTermLoop fuel (.binary expr op right) st2
      else (.ok expr, st1)

/-- Embedding of `Parser._factor` (parser.py 400-409). -/
def pFactor : Nat → PState → Except PyExc Expr × PState
  | 0, st => (.error .fuelExhausted, st)
  | fuel + 1, st =>
      match pUnary fuel st with
      | (.error e, st1) => (.error e, st1)
      | (.ok expr, st1) => pFactorLoop fuel expr st1

def pFactorLoop : Nat → Expr → PState → Except PyExc Expr × PState
  | 0, _, st => (.error .fuelExhausted, st)
  | fuel + 1, expr, st =>
      let (m, st1) := pMatch st [.SLASH, .STAR, .MODULO, .CARAT]
      if m then
        let op := binOpOf (pPrev st1).ttype
        match pUnary fuel st1 with
        | (.error e, st2) => (.error e, st2)
        | (.ok right, st2) => pFactorLoop fuel (.binary expr op right) st2
      else (.ok expr, st1)

/-- Embedding of `Parser._unary` (parser.py 411-419). -/
def pUnary : Nat → PState → Except PyExc Expr × PState
  | 0, st => (.error .fuelExhausted, st)
  | fuel + 1, st =>
      let (m, st1) := pMatch st [.BANG, .MINUS]
      if m then
        let op : UnOp := if (pPrev st1).ttype = .BANG then .bang else .minus
        match pUnary fuel st1 with
        | (.error e, st2) => (.error e, st2)
        | (.ok right, st2) => (.ok (.unary op right), st2)
      else pCall fuel st1

/-- Embedding of `Parser._call` (parser.py 421-436). -/
def pCall : Nat → PState → Except PyExc Expr × PState
  | 0, st => (.error .fuelExhausted, st)
  | fuel + 1, st =>
      match pPrimary fuel st with
      | (.error e, st1) => (.error e, st1)
      | (.ok expr, st1) => pCallLoop fuel expr st1

def pCallLoop : Nat → Expr → PState → Except PyExc Expr × PState
  | 0, _, st => (.error .fuelExhausted, st)
  | fuel + 1, expr, st =>
      let (mP, st1) := pMatch st [.LEFT_PAREN]
      if mP then
        match pFinishCall fuel expr st1 with
        | (.error e, st2) => (.error e, st2)
        | (.ok expr2, st2) => pCallLoop fuel expr2 st2
      else
        let (mD, st2) := pMatch st1 [.DOT]
        if mD then
          match pConsume st2 .IDENTIFIER "Expected property name after dot." with
          | (.error e, st3) => (.error e, st3)
          | (.ok name, st3) => pCallLoop fuel (.get expr name.lexeme) st3
        else (.ok expr, st2)

/-- Embedding of `Parser._finish_call` (parser.py 438-453), including the 255-argument
limit raised through `_error`. -/
def pFinishCall : Nat → Expr → PState → Except PyExc Expr × PState
  | 0, _, st => (.error .fuelExhausted, st)
  | fuel + 1, callee, st =>
      let argsRes : Except PyExc (List Expr) × PState :=
        if ¬ pCheck st .RIGHT_PAREN then pArgsLoop fuel [] st
        else (.ok [], st)
      match argsRes with
      | (.error e, st1) => (.error e, st1)
      | (.ok args, st1) =>
        match pConsume st1 .RIGHT_PAREN "Expected paren after arguments." with
        | (.error e, st2) => (.error e, st2)
        | (.ok _, st2) => (.ok (.call callee args), st2)

/-- The argument loop of `_finish_call` (parser.py 446-451). -/
def pArgsLoop : Nat → List Expr → PState → Except PyExc (List Expr) × PState
  | 0, _, st => (.error .fuelExhausted, st)
  | fuel + 1, acc, st =>
      if acc.length ≥ 255 then
        let (e, st1) := pError st "Cannot have more than 255 arguments."
        (.error e, st1)
      else
        match pAssignment fuel st with
        | (.error e, st1) => (.error e, st1)
        | (.ok a, st1) =>
            let (m, st2) := pMatch st1 [.COMMA]
            if m then pArgsLoop fuel (acc ++ [a]) st2
            else (.ok (acc ++ [a]), st2)

/-- Embedding of `Parser._primary` (parser.py 455-481). -/
def pPrimary : Nat → PState → Except PyExc Expr × PState
  | 0, st => (.error .fuelExhausted, st)
  | fuel + 1, st =>
      let (mF, st1) := pMatch st [.FALSE]
      if mF then (.ok (.literal (.boolean false)), st1)
      else
        let (mT, st2) := pMatch st1 [.TRUE]
        if mT then (.ok (.literal (.boolean true)), st2)
        else
          let (mN, st3) := pMatch st2 [.NIL]
          if mN then (.ok (.literal .nil), st3)
          else
            let (mL, st4) := pMatch st3 [.NUMBER, .STRING]
            if mL then (.ok (.literal (primOfLit (pPrev st4).literal)), st4)
            else
              let (mS, st5) := pMatch st4 [.SUPER]
              if mS then
                match pConsume st5 .DOT "Expected dot after super." with
                | (.error e, st6) => (.error e, st6)
                | (.ok _, st6) =>
                  match pConsume st6 .IDENTIFIER "Expected superclass method name." with
                  | (.error e, st7) => (.error e, st7)
                  | (.ok m, st7) => (.ok (.superE m.lexeme), st7)
              else
                let (mTh, st6) := pMatch st5 [.THIS]
                if mTh then (.ok .this, st6)
                else
                  let (mI, st7) := pMatch st6 [.IDENTIFIER]
                  if mI then (.ok (.variableE (pPrev st7).lexeme), st7)
                  else
                    let (mPar, st8) := pMatch st7 [.LEFT_PAREN]
                    if mPar then
                      match pAssignment fuel st8 with
                      | (.error e, st9) => (.error e, st9)
                      | (.ok e2, st9) =>
                        match pConsume st9 .RIGHT_PAREN "Expected paren after expression." with
                        | (.error e, st10) => (.error e, st10)
                        | (.ok _, st10) => (.ok (.grouping e2), st10)
                    else
                      let (e, st9) := pError st8 "Expected expression."
                      (.error e, st9)

/-- The loop of `Parser.parse` (parser.py 50-56). -/
def pParseLoop : Nat → PState → Except PyExc (List Stmt) × PState
  | 0, st => (.error .fuelExhausted, st)
  | fuel + 1, st =>
      if pAtEnd st then (.ok [], st)
      else
        match pDeclaration fuel st with
        | (.error e, st1) => (.error e, st1)
        | (.ok d, st1) =>
            match pParseLoop fuel st1 with
            | (.error e, st2) => (.error e, st2)
            | (.ok ds, st2) =>
                match d with
                | some d2 => (.ok (d2 :: ds), st2)
                | none => (.ok ds, st2)

end

/-- Embedding of `Parser.parse` on a fresh parser state (`Parser.__init__` with the given
`debug` flag; `PyLox.run` passes the default `debug=True`). -/
def pParse (fuel : Nat) (tokens : List Token) (debug : Bool) :
    Except PyExc (List Stmt) × PState :=
  pParseLoop fuel
    { tokens := tokens, current := 0, hasError := false, debug := debug,
      errlog := [] }


/-! ## Concrete programs and inputs used by the claim theorems -/

/-- Lox program `while (true) do throw "boom" done` (body a one-statement
block, as the parser produces for a braced body). -/
def c1While : Stmt :=
  .whileS (.literal (.boolean true)) (.block [.throwS (.literal (.strP "boom"))])

/-- The same throw statement outside any loop. -/
def c1Throw : Stmt := .throwS (.literal (.strP "boom"))

/-- Lox program: a function whose body returns 42 from inside a
try/catch, then a print of its call result. -/
def c2prog : List Stmt :=
  [ .function "f" []
      [ .tryS (some "e")
          (.block [.returnS (some (.literal (.intP 42)))])
          (some (.block [.print (.literal (.strP "caught"))]))
          none ]
  , .print (.call (.variableE "f") []) ]

/-- Filesystem for the preprocessor claim: one header file. -/
def c5fs : List (String × String) := [("src/headers/a.lox", "print 1;")]

/-- Source with two identical import directives. -/
def c5src : String := "import <a>\nimport <a>\n"

/-- Token shorthand for the parser claim (positions are irrelevant to the
parser logic). -/
def mkTok (tt : TokenType) (lex : String) : Token :=
  { ttype := tt, lexeme := lex, literal := none, line := 1, column := 1 }

def numTok1 : Token :=
  { ttype := .NUMBER, lexeme := "1", literal := some (.int 1), line := 1,
    column := 1 }

/-- Token stream of `f(1, 1, ..., 1); print 1;` with `n` arguments. -/
def overCallTokens (n : Nat) : List Token :=
  [mkTok .IDENTIFIER "f", mkTok .LEFT_PAREN "("] ++
  (List.replicate (n - 1) [numTok1, mkTok .COMMA ","]).flatten ++
  [numTok1, mkTok .RIGHT_PAREN ")", mkTok .SEMICOLON ";",
   mkTok .PRINT "print", numTok1, mkTok .SEMICOLON ";", mkTok .EOF ""]

/-- Identifier-shaped character lists: `[A-Za-z_][A-Za-z0-9_]*` (the claim
C3 lexeme shape). -/
def isIdentChars (l : List Char) : Bool :=
  match l with
  | [] => false
  | c :: rest =>
      (c.isAlpha || c = '_') && rest.all (fun d => d.isAlphanum || d = '_')


/-! ## Helper lemmas -/

/-- Floor division is invariant under negating both operands. -/
theorem fdiv_neg_neg (a b : Int) (hb : b ≠ 0) :
    Int.fdiv (-a) (-b) = Int.fdiv a b := by
  rcases a with (_ | m) | m <;> rcases b with (_ | n) | n <;> first
    | rfl
    | exact absurd rfl hb

/-- Python `a // b` on integers (`Int.fdiv`) computes the floor of the
rational quotient. -/
theorem fdiv_eq_floor_div (a b : Int) (h : b ≠ 0) :
    Int.fdiv a b = ⌊(a : ℚ) / (b : ℚ)⌋ := by
  rcases lt_trichotomy b 0 with hb | hb | hb
  · have hpos : (0 : Int) < -b := by omega
    have h1 : Int.fdiv a b = Int.fdiv (-a) (-b) := (fdiv_neg_neg a b h).symm
    rw [h1, Int.fdiv_eq_ediv _ hpos.le]
    have h2 : (((-b).toNat : ℕ) : ℚ) = ((-b : ℤ) : ℚ) := by
      exact_mod_cast congrArg (fun z : ℤ => (z : ℚ)) (Int.toNat_of_nonneg hpos.le)
    have h3 : ((-a : ℤ) : ℚ) / ((-b : ℤ) : ℚ) = (a : ℚ) / (b : ℚ) := by
      push_cast
      rw [neg_div_neg_eq]
    rw [← h3, ← h2, Rat.floor_intCast_div_natCast, Int.toNat_of_nonneg hpos.le]
  · exact absurd hb h
  · rw [Int.fdiv_eq_ediv _ hb.le]
    have h2 : ((b.toNat : ℕ) : ℚ) = ((b : ℤ) : ℚ) := by
      exact_mod_cast congrArg (fun z : ℤ => (z : ℚ)) (Int.toNat_of_nonneg hb.le)
    rw [← h2, Rat.floor_intCast_div_natCast, Int.toNat_of_nonneg hb.le]

/-- Embedding of `_execute_block` restores `_environment` on every exit path. -/
theorem execBlock_restores_env (fuel : Nat) (stmts : List Stmt) (envId : Nat)
    (s : InterpState) : ((execBlock fuel stmts envId s).2).env = s.env := by
  cases fuel with
  | zero => rfl
  | succ n =>
      rcases h : execStmts n stmts { s with env := envId } with ⟨r, s1⟩
      simp [execBlock, h]

/-! ## Claim theorems -/

/-- C1: the claim says `visit_while_stmt` catches exactly break and
continue and lets every other runtime error escape, to be reported.  The
code wraps the whole loop in `except PyLoxRuntimeError: return`, and every
Lox runtime error (here: a `throw`) is a `PyLoxRuntimeError`, so the loop
swallows it: executing `while (true) do throw "boom" done` completes
normally, `interpret` reports nothing, while the same `throw` outside the
loop is logged as an error by `interpret`. -/
theorem C1_while_swallows_runtime_errors :
    (execStmt 50 c1While initState).1 = .ok () ∧
    (interpret 100 [c1While] initState).1 = none ∧
    (interpret 100 [c1While] initState).2.errlog = [] ∧
    (interpret 100 [c1Throw] initState).2.errlog = ["boom"] :=
  ⟨rfl, rfl, rfl, rfl⟩

/-- C2: the claim says a `return v` inside a `try` propagates to the
enclosing call, the call evaluates to `v`, and the catch block does not
run.  `visit_try_stmt` catches bare `Exception`, which includes the
`PyLoxReturnError` signal: in `c2prog` the catch block runs (printing
`caught`) and `f()` evaluates to nil, printed as `nil` instead of `42`. -/
theorem C2_return_swallowed_by_try :
    (interpret 100 c2prog initState).2.output = ["caught", "nil"] ∧
    (interpret 100 c2prog initState).1 = none ∧
    (interpret 100 c2prog initState).2.errlog = [] :=
  ⟨rfl, rfl, rfl⟩

/-- C4: the claim says `h.get(k)` after `h.set(k, v)` returns `v` even for
falsy `v`.  `Get.__call__` chains the two dict lookups with Python `or`,
so a stored falsy value (here `false` under key `1`) falls through to the
`str(k)` lookup and comes back as nil; truthy values and genuine misses
behave as claimed. -/
theorem C4_hash_get_drops_falsy_values :
    hashSet [] (.intV 1) (.boolean false) =
      .ok [(HKey.v (.intV 1), LoxValue.boolean false)] ∧
    hashGet [(HKey.v (.intV 1), LoxValue.boolean false)] (.intV 1) =
      .ok LoxValue.nil ∧
    hashGet [(HKey.v (.intV 1), LoxValue.intV 5)] (.intV 1) =
      .ok (LoxValue.intV 5) ∧
    hashGet [] (.intV 1) = .ok LoxValue.nil :=
  ⟨rfl, rfl, rfl, rfl⟩

/-- C5: the claim says a duplicated import is inlined exactly once.  The
duplicate is indeed skipped in the `_includes` dict (second conjunct), but
the inlining uses `str.replace`, which rewrites every occurrence of the
directive, so the file contents appear once per directive occurrence:
both `import <a>` lines become `print 1;`. -/
theorem C5_duplicate_import_inlined_at_every_occurrence :
    resolveImports c5src c5fs = "print 1;\nprint 1;\n" ∧
    includesOf c5src c5fs = [("src/headers/a.lox", "<a>")] :=
  ⟨rfl, rfl⟩

/-- C7: values of distinct runtime types are never equal: `is_equal`
short-circuits on `type(left) != type(right)`, so `==` yields false and
`!=` yields true. -/
theorem C7_distinct_types_never_equal (x y : LoxValue)
    (h : pyTypeOf x ≠ pyTypeOf y) :
    evalBinaryOp .equalEqual x y = .ok (.boolean false) ∧
    evalBinaryOp .bangEqual x y = .ok (.boolean true) := by
  have hzero : is_equal x y = false := by
    unfold is_equal
    rw [if_pos h]
  constructor <;> simp [evalBinaryOp, hzero]

/-- C7 witness: the integer 1 and the float 1.0 have distinct runtime
types and compare unequal. -/
theorem C7_witness :
    pyTypeOf (LoxValue.intV 1) ≠ pyTypeOf (LoxValue.floatV 1) ∧
    (evalBinaryOp .equalEqual (.intV 1) (.floatV 1) = .ok (.boolean false) ∧
      evalBinaryOp .bangEqual (.intV 1) (.floatV 1) = .ok (.boolean true)) :=
  ⟨by decide, C7_distinct_types_never_equal (.intV 1) (.floatV 1) (by decide)⟩

/-- C8: for Lox integers, `+` stays an integer, `/` is true division and
yields a float, and the backslash operator yields the integer floor of the
quotient (for a nonzero divisor). -/
theorem C8_integer_float_laws (a b : Int) (hb : b ≠ 0) :
    evalBinaryOp .plus (.intV a) (.intV b) = .ok (.intV (a + b)) ∧
    evalBinaryOp .slash (.intV a) (.intV b) =
      .ok (.floatV ((a : ℚ) / (b : ℚ))) ∧
    evalBinaryOp .backslash (.intV a) (.intV b) =
      .ok (.intV ⌊(a : ℚ) / (b : ℚ)⌋) := by
  have hbq : ((b : ℚ)) ≠ 0 := Int.cast_ne_zero.mpr hb
  refine ⟨rfl, ?_, ?_⟩
  · simp [evalBinaryOp, asNum, NumV.toQ, hbq]
  · simp [evalBinaryOp, asNum, NumV.toQ, hb, fdiv_eq_floor_div a b hb]

/-- C8 witness at `a = 7`, `b = -2` (a case where floor and truncation
differ). -/
theorem C8_witness :
    ((-2 : Int) ≠ 0) ∧
    (evalBinaryOp .plus (.intV 7) (.intV (-2)) = .ok (.intV (7 + (-2))) ∧
      evalBinaryOp .slash (.intV 7) (.intV (-2)) =
        .ok (.floatV ((7 : ℚ) / ((-2 : ℚ)))) ∧
      evalBinaryOp .backslash (.intV 7) (.intV (-2)) =
        .ok (.intV ⌊(7 : ℚ) / ((-2 : ℚ))⌋)) :=
  ⟨by decide, C8_integer_float_laws 7 (-2) (by decide)⟩

/-- C9: executing a Block statement leaves `_environment` where it was, on
every exit path — `_execute_block` restores the previous environment in a
`finally`, and `visit_block_stmt` only wraps it with a fresh child
environment.  The result (first component) is arbitrary here: normal
completion, control signals, runtime errors and even fuel exhaustion all
take the same restore path. -/
theorem C9_block_restores_environment (fuel : Nat) (stmts : List Stmt)
    (envId : Nat) (s : InterpState) :
    ((execBlock fuel stmts envId s).2).env = s.env ∧
    ((execStmt fuel (.block stmts) s).2).env = s.env := by
  refine ⟨execBlock_restores_env fuel stmts envId s, ?_⟩
  cases fuel with
  | zero => rfl
  | succ n =>
      show ((execBlock n stmts s.envs.length
        { s with envs := s.envs ++ [{ enclosing := some s.env, values := [] }] }).2).env = s.env
      rw [execBlock_restores_env]

/-- C10: when a try statement has no catch block or no error binding,
every Python exception raised by the try block is silently discarded: the
overall outcome of the try statement is exactly the outcome of running the
finally block (or normal completion when there is none) from the state the
try block left behind. -/
theorem C10_try_without_catch_discards_errors (fuel : Nat)
    (err : Option String) (tb : Stmt) (cb fb : Option Stmt)
    (s : InterpState) (e : PyExc)
    (hc : cb = none ∨ err = none)
    (he : (execStmt fuel tb s).1 = .error e)
    (hex : e.isException = true) :
    execStmt (fuel + 1) (.tryS err tb cb fb) s =
      match fb with
      | some fblock => execStmt fuel fblock (execStmt fuel tb s).2
      | none => (.ok (), (execStmt fuel tb s).2) := by
  rcases h1 : execStmt fuel tb s with ⟨r1, s1⟩
  have he2 : r1 = .error e := by
    rw [h1] at he
    exact he
  subst he2
  show execStmt (fuel + 1) (.tryS err tb cb fb) s =
    match fb with
    | some fblock => execStmt fuel fblock s1
    | none => (.ok (), s1)
  cases fb with
  | none =>
      rcases hc with hc | hc
      · subst hc
        simp only [execStmt, h1, hex, if_true]
      · subst hc
        cases cb <;> simp only [execStmt, h1, hex, if_true]
  | some fblock =>
      rcases h2 : execStmt fuel fblock s1 with ⟨rf, s3⟩
      rcases hc with hc | hc
      · subst hc
        simp only [execStmt, h1, hex, if_true]
        rw [h2]
        cases rf with
        | ok u =>
            cases u
            rfl
        | error ef => rfl
      · subst hc
        cases cb with
        | none =>
            simp only [execStmt, h1, hex, if_true]
            rw [h2]
            cases rf with
            | ok u =>
                cases u
                rfl
            | error ef => rfl
        | some cblock =>
            simp only [execStmt, h1, hex, if_true]
            rw [h2]
            cases rf with
            | ok u =>
                cases u
                rfl
            | error ef => rfl

/-- C10 witness: a throw inside a try that has a binding name but no catch
block; the finally block runs and the try statement completes normally. -/
theorem C10_witness :
    ((none : Option Stmt) = none ∨ (some "e" : Option String) = none) ∧
    (execStmt 2 (.throwS (.literal (.strP "x"))) initState).1 =
      .error (.runtimeError "x") ∧
    (PyExc.runtimeError "x").isException = true ∧
    execStmt (2 + 1)
        (.tryS (some "e") (.throwS (.literal (.strP "x"))) none
          (some (.print (.literal (.strP "done"))))) initState =
      match (some (Stmt.print (.literal (.strP "done"))) : Option Stmt) with
      | some fblock =>
          execStmt 2 fblock
            (execStmt 2 (.throwS (.literal (.strP "x"))) initState).2
      | none =>
          (.ok (), (execStmt 2 (.throwS (.literal (.strP "x"))) initState).2) :=
  ⟨Or.inl rfl, rfl, rfl,
    C10_try_without_catch_discards_errors 2 (some "e")
      (.throwS (.literal (.strP "x"))) none
      (some (.print (.literal (.strP "done")))) initState
      (.runtimeError "x") (Or.inl rfl) rfl rfl⟩

/-- C6 counterexample: with the constructor default `debug=True` (the
configuration `PyLox.run` uses), a 256-argument call makes `Parser.parse`
raise `PyLoxParseError` instead of returning a statement list. -/
theorem C6_counterexample_default_debug_aborts :
    (pParse 600 (overCallTokens 256) true).1 =
      .error (.parseError "Parse Error Cannot have more than 255 arguments.") :=
  rfl

/-- C6 amended: only with `debug=False` is the over-limit error reported
(logged once) while parsing continues: the offending declaration is
dropped, the parser synchronizes, the error flag is set, and `parse`
returns the remaining statements. -/
theorem C6_amended_overlimit_continues_without_debug :
    (pParse 600 (overCallTokens 256) false).1 =
      .ok [.print (.literal (.intP 1))] ∧
    (pParse 600 (overCallTokens 256) false).2.hasError = true ∧
    (pParse 600 (overCallTokens 256) false).2.errlog =
      ["Cannot have more than 255 arguments."] :=
  ⟨rfl, rfl, rfl⟩

/-- C3 counterexample: the single-identifier source `foo` (a maximal
lexeme matching the identifier shape) makes `scan_tokens` raise the
`Invalid identifier` syntax error, because the lexeme starts at column 1,
is no keyword, and no earlier IDENTIFIER token carries the same lexeme. -/
theorem C3_counterexample_fresh_identifier_at_line_start :
    isIdentChars "foo".toList = true ∧
    scanTokens 10 "foo".toList = .error (.syntaxError "Invalid identifier") :=
  ⟨rfl, rfl⟩



/-! ## Lexer lemmas for the identifier claim -/

/-- The identifier loop consumes exactly the remaining run `rest` of
identifier characters and stops there, because the following text `more`
begins with a non-identifier character (or the input ends); position and
column advance by the length of the run. -/
theorem identLoop_run (rest more : List Char)
    (hall : ∀ c ∈ rest, (c.isAlphanum || c = '_') = true)
    (hstop : ∀ d, more.head? = some d → (d.isAlphanum || d = '_') = false) :
    ∀ (cur : Cursor) (fuel : Nat), rest.length ≤ fuel →
      cur.source.drop cur.current = rest ++ more →
      identLoop fuel cur =
        { cur with current := cur.current + rest.length,
                   column := cur.column + rest.length } := by
  induction rest with
  | nil =>
      intro cur fuel _ hdrop
      simp only [List.nil_append] at hdrop
      have hstopP : ((cur.peekAt 0).isAlphanum || cur.peekAt 0 = '_') = false := by
        cases hmore : more with
        | nil =>
            subst hmore
            have hend : cur.source.length ≤ cur.current := by
              have h2 := congrArg List.length hdrop
              simp [List.length_drop] at h2
              omega
            have hpeek : cur.peekAt 0 = '\x00' := by
              unfold Cursor.peekAt
              rw [Nat.add_zero, if_pos (by omega)]
            rw [hpeek]
            decide
        | cons d ds =>
            subst hmore
            have hlt : cur.current < cur.source.length := by
              have h2 := congrArg List.length hdrop
              simp [List.length_drop] at h2
              omega
            have hget : cur.source.getD cur.current '\x00' = d := by
              have h0 : cur.source[cur.current]? = some d := by
                have h1 : (cur.source.drop cur.current)[0]? = some d := by
                  rw [hdrop]
                  simp
                rwa [List.getElem?_drop, Nat.add_zero] at h1
              simp [List.getD, h0]
            have hpeek : cur.peekAt 0 = d := by
              unfold Cursor.peekAt
              rw [Nat.add_zero, if_neg (by omega)]
              exact hget
            rw [hpeek]
            exact hstop d rfl
      cases fuel with
      | zero => simp [identLoop]
      | succ f =>
          simp [identLoop, hstopP]
  | cons c rest ih =>
      intro cur fuel hfuel hdrop
      simp only [List.cons_append] at hdrop
      have hlt : cur.current < cur.source.length := by
        have h2 := congrArg List.length hdrop
        simp [List.length_drop] at h2
        omega
      have hget : cur.source.getD cur.current '\x00' = c := by
        have h0 : cur.source[cur.current]? = some c := by
          have h1 : (cur.source.drop cur.current)[0]? = some c := by
            rw [hdrop]
            simp
          rwa [List.getElem?_drop, Nat.add_zero] at h1
        simp [List.getD, h0]
      have hpeek : cur.peekAt 0 = c := by
        unfold Cursor.peekAt
        rw [Nat.add_zero, if_neg (by omega)]
        exact hget
      cases fuel with
      | zero =>
          simp at hfuel
      | succ f =>
          have hcond : ((cur.peekAt 0).isAlphanum || cur.peekAt 0 = '_') = true := by
            rw [hpeek]
            exact hall c (by simp)
          have hdrop2 : cur.source.drop (cur.current + 1) = rest ++ more := by
            have h3 := congrArg List.tail hdrop
            rwa [List.tail_drop] at h3
          have hih := ih (fun d hd => hall d (by simp [hd]))
            (cur.advance).1 f (by simp at hfuel; omega)
            (by simpa [Cursor.advance] using hdrop2)
          have harith1 : cur.current + 1 + rest.length =
              cur.current + (c :: rest).length := by
            simp
            omega
          have harith2 : cur.column + 1 + rest.length =
              cur.column + (c :: rest).length := by
            simp
            omega
          simp only [identLoop, hcond, if_true]
          rw [hih]
          simp only [Cursor.advance]
          rw [harith1, harith2]

/-- A character that can start an identifier is routed past every earlier
branch of `_scan_token`. -/
theorem identStart_not_special (c : Char) (h : (c.isAlpha || c = '_') = true) :
    c ∉ miscChars ∧ c ≠ '/' ∧ c ∉ complexSingleChars ∧ c ∉ simpleChars ∧
    c ≠ '\n' ∧ ¬(c = '"' ∨ c = '\'') := by
  rcases Bool.or_eq_true_iff.mp h with ha | hu
  · refine ⟨?_, ?_, ?_, ?_, ?_, ?_⟩
    · intro hm
      simp [miscChars] at hm
      rcases hm with rfl | rfl | rfl <;> exact absurd ha (by decide)
    · rintro rfl
      exact absurd ha (by decide)
    · intro hm
      simp [complexSingleChars] at hm
      rcases hm with rfl | rfl | rfl | rfl <;> exact absurd ha (by decide)
    · intro hm
      simp [simpleChars] at hm
      rcases hm with rfl | rfl | rfl | rfl | rfl | rfl | rfl | rfl | rfl | rfl | rfl | rfl <;>
        exact absurd ha (by decide)
    · rintro rfl
      exact absurd ha (by decide)
    · rintro (rfl | rfl) <;> exact absurd ha (by decide)
  · have hc : c = '_' := by
      exact of_decide_eq_true hu
    subst hc
    refine ⟨by decide, by decide, by decide, by decide, by decide, by decide⟩

/-- Embedding of `_scan_token` dispatches an identifier-start character to
`_read_identifier`. -/
theorem scanToken_ident_start (st : LexState) (c : Char) (rest2 : List Char)
    (hc : (c.isAlpha || c = '_') = true)
    (hdrop : st.cursor.source.drop st.cursor.current = c :: rest2) :
    scanToken st = readIdentifier { st with cursor := (st.cursor.advance).1 } := by
  obtain ⟨hmisc, hslash, hcomplex, hsimple, hnl, hquote⟩ :=
    identStart_not_special c hc
  have hlen := congrArg List.length hdrop
  simp [List.length_drop] at hlen
  have hget : st.cursor.source.getD st.cursor.current '\x00' = c := by
    have h0 : st.cursor.source[st.cursor.current]? = some c := by
      have h1 : (st.cursor.source.drop st.cursor.current)[0]? = some c := by
        rw [hdrop]
        simp
      rwa [List.getElem?_drop, Nat.add_zero] at h1
    simp [List.getD, h0]
  have hident : (c.isAlpha ∨ c = '_') := by
    rcases Bool.or_eq_true_iff.mp hc with h2 | h2
    · exact Or.inl h2
    · exact Or.inr (of_decide_eq_true h2)
  simp only [scanToken, Cursor.advance, hget]
  rw [if_neg hmisc, if_neg hslash, if_neg hcomplex, if_neg hsimple,
    if_neg hnl, if_neg hquote, if_pos hident]

/-- Outcome of `_read_identifier` when the remaining source is the
identifier tail `rest2` followed by text that cannot extend it. -/
theorem readIdentifier_run (st : LexState) (rest2 more : List Char)
    (hall : ∀ d ∈ rest2, (d.isAlphanum || d = '_') = true)
    (hstop : ∀ d, more.head? = some d → (d.isAlphanum || d = '_') = false)
    (hdrop : st.cursor.source.drop st.cursor.current = rest2 ++ more) :
    readIdentifier st =
      (let c1 : Cursor :=
        { st.cursor with current := st.cursor.current + rest2.length,
                         column := st.cursor.column + rest2.length }
       let value := sliceLexeme c1
       let ids := st.tokens.filterMap
         (fun t => if t.ttype = .IDENTIFIER then some t.lexeme else none)
       if (c1.column : Int) - value.length = 1 ∧ value ∉ keywordList ∧
           value ∉ ids then
         (.error (.syntaxError "Invalid identifier") : Except PyExc LexState)
       else if value ∈ keywordList then
         .ok (addToken { st with cursor := c1 } (keywordType value) none)
       else
         .ok (addToken { st with cursor := c1 } .IDENTIFIER
           (some (.str value)))) := by
  have hlen := congrArg List.length hdrop
  simp [List.length_drop] at hlen
  have hfl : rest2.length ≤ readIdentifier.c1fuel st.cursor := by
    unfold readIdentifier.c1fuel
    omega
  simp only [readIdentifier]
  rw [identLoop_run rest2 more hall hstop st.cursor _ hfl hdrop]

/-- Scanning a source that consists of one maximal identifier lexeme:
keyword token for keywords, `Invalid identifier` otherwise (the lexeme
starts at column 1 and no IDENTIFIER token precedes it). -/
theorem scan_single_ident (c : Char) (rest : List Char)
    (hc : (c.isAlpha || c = '_') = true)
    (hall : ∀ d ∈ rest, (d.isAlphanum || d = '_') = true) :
    scanTokens ((c :: rest).length + 2) (c :: rest) =
      if String.mk (c :: rest) ∈ keywordList then
        .ok [{ ttype := keywordType (String.mk (c :: rest)),
               lexeme := String.mk (c :: rest), literal := none, line := 1,
               column := (c :: rest).length + 1 },
             { ttype := .EOF, lexeme := String.mk (c :: rest), literal := none,
               line := 1, column := (c :: rest).length + 1 }]
      else .error (.syntaxError "Invalid identifier") := by
  have hlc : (c :: rest).length = rest.length + 1 := by simp
  rw [hlc]
  simp only [scanTokens]
  set st0 : LexState :=
    { cursor := { current := 0, start := 0, line := 1, column := 1,
                  source := c :: rest }, tokens := [] } with hst0
  have hne : st0.cursor.atEnd = false := by
    simp [Cursor.atEnd, hst0]
  have hstep1 : scanLoop (rest.length + 1 + 2) st0 =
      match scanToken st0 with
      | .ok st2 => scanLoop (rest.length + 1 + 1) st2
      | .error e => .error e := by
    show scanLoop ((rest.length + 1 + 1) + 1) st0 = _
    simp only [scanLoop, hne, Bool.false_eq_true, if_false]
  have hdrop0 : st0.cursor.source.drop st0.cursor.current = c :: rest := by
    simp [hst0]
  have hstep2 : scanToken st0 =
      readIdentifier { st0 with cursor := (st0.cursor.advance).1 } :=
    scanToken_ident_start st0 c rest hc hdrop0
  set st1 : LexState :=
    { cursor := { current := 1, start := 0, line := 1, column := 2,
                  source := c :: rest }, tokens := [] } with hst1
  have hst1eq : ({ st0 with cursor := (st0.cursor.advance).1 } : LexState) = st1 := by
    simp [hst0, hst1, Cursor.advance]
  rw [hst1eq] at hstep2
  have hdrop1 : st1.cursor.source.drop st1.cursor.current = rest := by
    simp [hst1]
  have hstep3 := readIdentifier_run st1 rest [] hall
    (by intro d hd; simp at hd) (by simpa using hdrop1)
  have hvalue : sliceLexeme
      { current := 1 + rest.length, start := 0, line := 1,
        column := 2 + rest.length, source := c :: rest } =
      String.mk (c :: rest) := by
    have h9 : 1 + rest.length - 0 = (c :: rest).length := by
      simp
      omega
    simp [sliceLexeme, h9, List.take_length]
  have hvlen : (String.mk (c :: rest)).length = rest.length + 1 := rfl
  have hcond1 : ((2 + rest.length : Nat) : Int) -
      ((rest.length + 1 : Nat) : Int) = 1 := by
    push_cast
    omega
  simp only [hst1, List.filterMap_nil, hvalue, hvlen, hcond1,
    List.not_mem_nil, not_false_iff, and_true, true_and] at hstep3
  have harith : 2 + rest.length = rest.length + 1 + 1 := by omega
  by_cases hkw : ({ data := c :: rest } : String) ∈ keywordList
  · rw [if_neg (by simp [hkw]), if_pos hkw] at hstep3
    set st2 : LexState :=
      { cursor := { current := 1 + rest.length, start := 0, line := 1,
                    column := 2 + rest.length, source := c :: rest },
        tokens := [{ ttype := keywordType { data := c :: rest },
                     lexeme := { data := c :: rest }, literal := none,
                     line := 1, column := 2 + rest.length }] } with hst2
    have haddtok : addToken
        { cursor := { current := 1 + rest.length, start := 0, line := 1,
                      column := 2 + rest.length, source := c :: rest },
          tokens := ([] : List Token) }
        (keywordType { data := c :: rest }) none = st2 := by
      simp [addToken, hvalue, hst2]
    rw [haddtok] at hstep3
    have hend2 : st2.cursor.atEnd = true := by
      simp [Cursor.atEnd, hst2]
      omega
    have hstep4 : scanLoop (rest.length + 1 + 1) st2 = .ok st2 := by
      show scanLoop ((rest.length + 1) + 1) st2 = _
      simp only [scanLoop, hend2, if_true]
    rw [hstep1, hstep2, hstep3]
    simp only [hstep4, if_pos hkw, hst2, hvalue]
    rw [harith]
    simp
  · rw [if_pos (by simp [hkw])] at hstep3
    rw [if_neg hkw, hstep1, hstep2, hstep3]

/-- Scanning the same identifier preceded by a space: it starts at column
2, so a non-keyword is emitted as an IDENTIFIER token. -/
theorem scan_spaced_ident (c : Char) (rest : List Char)
    (hc : (c.isAlpha || c = '_') = true)
    (hall : ∀ d ∈ rest, (d.isAlphanum || d = '_') = true)
    (hnkw : String.mk (c :: rest) ∉ keywordList) :
    scanTokens ((c :: rest).length + 3) (' ' :: c :: rest) =
      .ok [{ ttype := .IDENTIFIER, lexeme := String.mk (c :: rest),
             literal := some (.str (String.mk (c :: rest))), line := 1,
             column := (c :: rest).length + 2 },
           { ttype := .EOF, lexeme := String.mk (c :: rest), literal := none,
             line := 1, column := (c :: rest).length + 2 }] := by
  have hlc : (c :: rest).length = rest.length + 1 := by simp
  rw [hlc]
  simp only [scanTokens]
  set st0 : LexState :=
    { cursor := { current := 0, start := 0, line := 1, column := 1,
                  source := ' ' :: c :: rest }, tokens := [] } with hst0
  have hne : st0.cursor.atEnd = false := by
    simp [Cursor.atEnd, hst0]
  set stA : LexState :=
    { cursor := { current := 1, start := 0, line := 1, column := 2,
                  source := ' ' :: c :: rest }, tokens := [] } with hstA
  have hstepA : scanToken st0 = .ok stA := by
    simp [scanToken, Cursor.advance, hst0, hstA, miscChars]
  have hstep1 : scanLoop (rest.length + 1 + 3) st0 = scanLoop (rest.length + 1 + 2) stA := by
    show scanLoop ((rest.length + 1 + 2) + 1) st0 = _
    simp only [scanLoop, hne, Bool.false_eq_true, if_false, hstepA]
  set stB : LexState :=
    { cursor := { current := 1, start := 1, line := 1, column := 2,
                  source := ' ' :: c :: rest }, tokens := [] } with hstB
  have hneA : stA.cursor.atEnd = false := by
    simp [Cursor.atEnd, hstA]
  have hstep2 : scanLoop (rest.length + 1 + 2) stA =
      match scanToken stB with
      | .ok st2 => scanLoop (rest.length + 1 + 1) st2
      | .error e => .error e := by
    show scanLoop ((rest.length + 1 + 1) + 1) stA = _
    simp only [scanLoop, hneA, Bool.false_eq_true, if_false]
  have hdropB : stB.cursor.source.drop stB.cursor.current = c :: rest := by
    simp [hstB]
  have hstep3 : scanToken stB =
      readIdentifier { stB with cursor := (stB.cursor.advance).1 } :=
    scanToken_ident_start stB c rest hc hdropB
  set stC : LexState :=
    { cursor := { current := 2, start := 1, line := 1, column := 3,
                  source := ' ' :: c :: rest }, tokens := [] } with hstC
  have hstCeq : ({ stB with cursor := (stB.cursor.advance).1 } : LexState) = stC := by
    simp [hstB, hstC, Cursor.advance]
  rw [hstCeq] at hstep3
  have hdropC : stC.cursor.source.drop stC.cursor.current = rest := by
    simp [hstC]
  have hstep4 := readIdentifier_run stC rest [] hall
    (by intro d hd; simp at hd) (by simpa using hdropC)
  have hvalue : sliceLexeme
      { current := 2 + rest.length, start := 1, line := 1,
        column := 3 + rest.length, source := ' ' :: c :: rest } =
      String.mk (c :: rest) := by
    have h9 : 2 + rest.length - 1 = (c :: rest).length := by
      simp
      omega
    simp [sliceLexeme, h9, List.take_length]
  have hvlen : (String.mk (c :: rest)).length = rest.length + 1 := rfl
  have hcond1 : ¬ (((3 + rest.length : Nat) : Int) -
      ((rest.length + 1 : Nat) : Int) = 1) := by
    push_cast
    omega
  simp only [hstC, List.filterMap_nil, hvalue, hvlen,
    List.not_mem_nil, not_false_iff, and_true, true_and] at hstep4
  rw [if_neg (by
    rintro ⟨h1, -⟩
    exact hcond1 h1), if_neg hnkw] at hstep4
  set st2 : LexState :=
    { cursor := { current := 2 + rest.length, start := 1, line := 1,
                  column := 3 + rest.length, source := ' ' :: c :: rest },
      tokens := [{ ttype := .IDENTIFIER, lexeme := { data := c :: rest },
                   literal := some (.str { data := c :: rest }),
                   line := 1, column := 3 + rest.length }] } with hst2
  have haddtok : addToken
      { cursor := { current := 2 + rest.length, start := 1, line := 1,
                    column := 3 + rest.length, source := ' ' :: c :: rest },
        tokens := ([] : List Token) }
      .IDENTIFIER (some (.str { data := c :: rest })) = st2 := by
    simp [addToken, hvalue, hst2]
  rw [haddtok] at hstep4
  have hend2 : st2.cursor.atEnd = true := by
    simp [Cursor.atEnd, hst2]
    omega
  have hstep5 : scanLoop (rest.length + 1 + 1) st2 = .ok st2 := by
    show scanLoop ((rest.length + 1) + 1) st2 = _
    simp only [scanLoop, hend2, if_true]
  have harith : 3 + rest.length = rest.length + 1 + 2 := by omega
  rw [hstep1, hstep2, hstep3, hstep4]
  simp only [hstep5, hst2, hvalue]
  rw [harith]
  simp

/-- C3 amended: for every maximal identifier lexeme, scanned at any
position of any source with any token history, the embedded scan-token
dispatch emits the keyword token when the lexeme is a keyword and an
IDENTIFIER token otherwise, except that a lexeme starting at column 1 of
its line that is neither a keyword nor the lexeme of an earlier
IDENTIFIER token raises an `Invalid identifier` syntax error.  Here
`c :: rest` is the lexeme and `more` the following text, whose first
character cannot extend it.  The second conjunct runs the
previously-seen clause end to end on a whole source: in ` foo`, newline,
`foo`, the second `foo` starts at column 1 but scans as an IDENTIFIER
because the first occurrence is on record. -/
theorem C3_amended_identifier_lexing
    (st : LexState) (c : Char) (rest more : List Char)
    (hc : (c.isAlpha || c = '_') = true)
    (hall : ∀ d ∈ rest, (d.isAlphanum || d = '_') = true)
    (hstop : ∀ d, more.head? = some d → (d.isAlphanum || d = '_') = false)
    (hdrop : st.cursor.source.drop st.cursor.current = c :: (rest ++ more))
    (hstart : st.cursor.start = st.cursor.current) :
    (scanToken st =
      if st.cursor.column = 1 ∧ String.mk (c :: rest) ∉ keywordList ∧
          String.mk (c :: rest) ∉ st.tokens.filterMap
            (fun t => if t.ttype = .IDENTIFIER then some t.lexeme else none)
      then .error (.syntaxError "Invalid identifier")
      else if String.mk (c :: rest) ∈ keywordList then
        .ok { cursor := { st.cursor with
                current := st.cursor.current + 1 + rest.length,
                column := st.cursor.column + 1 + rest.length },
              tokens := st.tokens ++
                [{ ttype := keywordType (String.mk (c :: rest)),
                   lexeme := String.mk (c :: rest), literal := none,
                   line := st.cursor.line,
                   column := st.cursor.column + 1 + rest.length }] }
      else
        .ok { cursor := { st.cursor with
                current := st.cursor.current + 1 + rest.length,
                column := st.cursor.column + 1 + rest.length },
              tokens := st.tokens ++
                [{ ttype := .IDENTIFIER, lexeme := String.mk (c :: rest),
                   literal := some (.str (String.mk (c :: rest))),
                   line := st.cursor.line,
                   column := st.cursor.column + 1 + rest.length }] }) ∧
    scanTokens 12
        (' ' :: 'f' :: 'o' :: 'o' :: '\n' :: 'f' :: 'o' :: 'o' :: []) =
      .ok [{ ttype := .IDENTIFIER, lexeme := "foo",
             literal := some (.str "foo"), line := 1, column := 5 },
           { ttype := .IDENTIFIER, lexeme := "foo",
             literal := some (.str "foo"), line := 2, column := 4 },
           { ttype := .EOF, lexeme := "foo", literal := none,
             line := 2, column := 4 }] := by
  refine ⟨?_, rfl⟩
  rw [scanToken_ident_start st c (rest ++ more) hc hdrop]
  have hdrop1 : ({ st with cursor := (st.cursor.advance).1 } :
      LexState).cursor.source.drop
      ({ st with cursor := (st.cursor.advance).1 } : LexState).cursor.current =
      rest ++ more := by
    show st.cursor.source.drop (st.cursor.current + 1) = rest ++ more
    have h3 := congrArg List.tail hdrop
    rwa [List.tail_drop] at h3
  rw [readIdentifier_run _ rest more hall hstop hdrop1]
  have hvalue : sliceLexeme
      { st.cursor with current := st.cursor.current + 1 + rest.length,
                       column := st.cursor.column + 1 + rest.length } =
      String.mk (c :: rest) := by
    simp only [sliceLexeme]
    rw [hstart]
    have hnum : st.cursor.current + 1 + rest.length - st.cursor.current =
        rest.length + 1 := by omega
    rw [hnum, hdrop, List.take_succ_cons, List.take_left]
  have hvlen : (String.mk (c :: rest)).length = rest.length + 1 := rfl
  have hguard : (((st.cursor.column + 1 + rest.length : Nat) : Int) -
      ((String.mk (c :: rest)).length : Int) = 1) ↔ st.cursor.column = 1 := by
    rw [hvlen]
    push_cast
    omega
  simp only [Cursor.advance, addToken, hvalue]
  rw [if_congr (and_congr_left' hguard) rfl rfl]

/-- C3 amended witness: at the mid-scan state of the source ` foo`,
newline, `foo` — cursor at the second `foo` (line 2, column 1) with the
first `foo` already on the token list — the theorem applies with a
nonempty token history: the previously-seen-IDENTIFIER clause fires and
the lexeme scans as an IDENTIFIER token instead of erroring. -/
theorem C3_amended_witness :
    (∀ d ∈ (['o', 'o'] : List Char), (d.isAlphanum || d = '_') = true) ∧
    scanToken
      { cursor := { current := 5, start := 5, line := 2, column := 1,
                    source := [' ', 'f', 'o', 'o', '\n', 'f', 'o', 'o'] },
        tokens := [{ ttype := .IDENTIFIER, lexeme := "foo",
                     literal := some (.str "foo"), line := 1, column := 5 }] } =
      .ok { cursor := { current := 8, start := 5, line := 2, column := 4,
                        source := [' ', 'f', 'o', 'o', '\n', 'f', 'o', 'o'] },
            tokens := [{ ttype := .IDENTIFIER, lexeme := "foo",
                         literal := some (.str "foo"), line := 1, column := 5 },
                       { ttype := .IDENTIFIER,
                         lexeme := String.mk ['f', 'o', 'o'],
                         literal := some (.str (String.mk ['f', 'o', 'o'])),
                         line := 2, column := 4 }] } := by
  refine ⟨by decide, ?_⟩
  have h := (C3_amended_identifier_lexing
    { cursor := { current := 5, start := 5, line := 2, column := 1,
                  source := [' ', 'f', 'o', 'o', '\n', 'f', 'o', 'o'] },
      tokens := [{ ttype := .IDENTIFIER, lexeme := "foo",
                   literal := some (.str "foo"), line := 1, column := 5 }] }
    'f' ['o', 'o'] [] (by decide) (by decide)
    (by intro d hd; simp at hd) rfl rfl).1
  rw [h]
  rw [if_neg (by decide), if_neg (by decide)]
  rfl

end LoxSpec
